import Mathlib

/-!
# Lighting block of the mud engine (src/src/gfx-pbr/Lighting.cpp)

A shallow embedding of `BlockLight::begin_render`, `BlockLight::options` and
`BlockLight::setup_lights`, followed by the properties of the per-frame light
snapshot and of the zone binning table. The callbacks of a render pass
(`init_block`, `begin_pass`, `submit`) are embedded with the GPU calls they
make, and the renderer table of `GfxSystem` (src/src/gfx/GfxSystem.cpp) with
`set_renderer`, `renderer` and `init_pipeline`. The file lookup `locate_file` and
the frame loop `begin_frame` of `GfxSystem`, and the translate action of the
editor (src/src/edit/Tools/TranslateTool.cpp), complete the development.

Modelling conventions.
* Floating point values that the code only copies or feeds to library functions
  (`mulp`, `muln`, `to_linear`, `cos`, ...) live in abstract types `F` (float),
  `V` (vec3), `M` (mat4) and `C` (Colour); the library functions are the fields
  of `FloatOps`.
* `ZoneLights::m_light_counts` and `ZoneLights::m_light_indices` are float
  vectors that only ever hold small non-negative integers (counters that start
  at 0 and are incremented, and loop indices); they are modelled as `Nat`, the
  casts `size_t(..)` and `float(index)` being exact on such values.
* `Light*` is modelled by the light record it points to.
* `c_max_forward_lights` and `c_max_shadows` are declared in a header that is
  not part of the sources; they are parameters of the embedding.
-/

namespace mud

/-! ## Data model -/

/-- Modelled from the spec: the enum `LightType` is declared in a header that is
missing from the sources; the spec lists its members as Point, Direct, Spot
(`LightType::Point` and `LightType::Direct` also occur in the example code). -/
inductive LightType where
  | Point
  | Direct
  | Spot
  deriving DecidableEq

/-- Modelled from the spec: the cast `size_t(light.m_type)`, the light type used
as a component index of a 4-component vector ("one slot per light type"); the
enumerators are numbered in declaration order. -/
def LightType.index : LightType → Fin 4
  | LightType.Point => 0
  | LightType.Direct => 1
  | LightType.Spot => 2

/-- The scene node a light is attached to, reduced to the two accessors the
lighting block calls: `position()` and `direction()`. -/
structure Node (V : Type) where
  position : V
  direction : V
  deriving DecidableEq

/-- The fields of `Light` read by the lighting block. -/
structure Light (F V C : Type) where
  m_node : Node V
  m_type : LightType
  m_colour : C
  m_range : F
  m_energy : F
  m_specular : F
  m_attenuation : F
  m_spot_angle : F
  m_spot_attenuation : F
  m_shadow_bias : F
  deriving DecidableEq

/-- The record pushed to `m_gpu_lights`, fields in the order of the aggregate
initialiser of line 192. -/
structure GpuLight (F V : Type) where
  position : V
  range : F
  energy : V
  specular : F
  direction : V
  attenuation : F
  spot_attenuation : F
  spot_cutoff : F
  deriving DecidableEq

/-- The record pushed to `m_gpu_shadows`, fields in the order of the aggregate
initialiser of line 209. -/
structure GpuLightShadow (F : Type) where
  matrix : F
  bias : F
  radius : F
  atlas_offset : F × F
  atlas_scale : F × F
  deriving DecidableEq

/-- The math library functions and float literals used by `setup_lights`. -/
structure FloatOps (F V M C : Type) where
  mulp : M → V → V
  muln : M → V → V
  to_linear : C → C
  /-- The product `Colour * float`. -/
  scale : C → F → C
  to_vec3 : C → V
  to_radians : F → F
  cos : F → F
  /-- The conversion of an integer constant to `float`. -/
  of_size : Nat → F
  /-- The literal `0.f`. -/
  zero : F
  /-- The literal `1.f`. -/
  one : F

/-- Modelled from the spec: the zone record `ZoneLights`, declared in a header
that is missing from the sources. `m_light_count` is a `uint16_t`,
`m_light_counts` a 4-component vector and `m_light_indices` a table of
4-component vectors indexed by slot; the declared number of slots is unknown,
the table is a total function of the slot. -/
structure ZoneLights where
  m_light_count : Nat
  m_light_counts : Fin 4 → Nat
  m_light_indices : Nat → Fin 4 → Nat

structure Camera (M : Type) where
  m_transform : M
  m_clustered : Bool

structure Fog where
  m_enabled : Bool

structure Environment where
  m_fog : Fog

structure Shot (F V C : Type) where
  m_lights : List (Light F V C)

/-- The fields of `Render` read by the lighting block; `m_env` is a pointer
that may be null. -/
structure Render (F V M C : Type) where
  m_shot : Shot F V C
  m_camera : Camera M
  m_env : Option Environment

/-- The state of the block. `m_zones` stands for the element `m_zones[0]`, the
only one the code touches; `m_index` is the index of the block, inherited from
`DrawBlock`. -/
structure BlockLight (F V C : Type) where
  m_index : Nat
  m_direct_lights : List (Light F V C)
  m_direct_light : Option (Light F V C)
  m_direct_light_index : Nat
  m_zones : ZoneLights
  m_gpu_lights : List (GpuLight F V)
  m_gpu_shadows : List (GpuLightShadow F)
  m_light_count : Nat

/-- Modelled from the spec: the shader options named in `BlockLight::options`;
their enumerators are declared in headers that are missing from the sources and
are taken as three distinct flags. -/
inductive ShaderOption where
  | CLUSTERED
  | FOG
  | DIRECT_LIGHT
  deriving DecidableEq

/-- Modelled from the spec: `ShaderVersion` is declared in a header that is
missing from the sources; it holds the shader feature flags, one per block and
option. -/
structure ShaderVersion where
  m_options : Nat → ShaderOption → Bool

/-- Modelled from the spec: `ShaderVersion::set_option(block, option, active)`
gives the flag of `option` in `block` the value `active` and leaves every other
flag as it is. -/
def ShaderVersion.set_option (shader_version : ShaderVersion) (block : Nat)
    (option : ShaderOption) (active : Bool) : ShaderVersion :=
  { m_options := fun b o =>
      if b = block ∧ o = option then active else shader_version.m_options b o }

/-! ## Operations -/

section Operations

variable {F V M C : Type}

/-- The loop `for(size_t index = first; index < first + lights.size(); ++index)`
over the elements of a span, threading the state through `body`. -/
def span_loop {σ α : Type} (body : σ → Nat → α → σ) : List α → Nat → σ → σ
  | [], _, s => s
  | x :: rest, index, s => span_loop body rest (index + 1) (body s index x)

/-- Body of the first loop of `setup_lights` (lines 181-196): push the view-space
snapshot of the light, write its index in the slot `light_type_count` of its
type, then increment the count of its type. -/
def setup_lights_bin (ops : FloatOps F V M C) (view : M) (b : BlockLight F V C)
    (index : Nat) (light : Light F V C) : BlockLight F V C :=
  let position := ops.mulp view light.m_node.position
  let range := light.m_range
  let energy := ops.to_vec3 (ops.scale (ops.to_linear light.m_colour) light.m_energy)
  let specular := light.m_specular
  let direction := ops.muln view light.m_node.direction
  let attenuation := light.m_attenuation
  let spot_attenuation := light.m_spot_attenuation
  let spot_cutoff := ops.cos (ops.to_radians light.m_spot_angle)
  let gpu_lights := b.m_gpu_lights ++
    [{ position := position, range := range, energy := energy, specular := specular,
       direction := direction, attenuation := attenuation,
       spot_attenuation := spot_attenuation, spot_cutoff := spot_cutoff }]
  let zone := b.m_zones
  let light_type_count := zone.m_light_counts light.m_type.index
  let light_indices := Function.update zone.m_light_indices light_type_count
    (Function.update (zone.m_light_indices light_type_count) light.m_type.index index)
  let light_counts := Function.update zone.m_light_counts light.m_type.index
    (light_type_count + 1)
  { b with
    m_gpu_lights := gpu_lights
    m_zones := { zone with m_light_indices := light_indices, m_light_counts := light_counts } }

/-- Body of the second loop of `setup_lights` (lines 201-209): push the shadow
placeholder of the light. -/
def setup_lights_shadow (c_max_shadows : Nat) (ops : FloatOps F V M C)
    (b : BlockLight F V C) (_index : Nat) (light : Light F V C) : BlockLight F V C :=
  let matrix := ops.of_size c_max_shadows
  let bias := light.m_shadow_bias
  let radius := ops.one
  let atlas_offset := (ops.zero, ops.zero)
  let atlas_scale := (ops.zero, ops.zero)
  { b with
    m_gpu_shadows := b.m_gpu_shadows ++
      [{ matrix := matrix, bias := bias, radius := radius,
         atlas_offset := atlas_offset, atlas_scale := atlas_scale }] }

/-- `BlockLight::setup_lights` (lines 168-214). The span `lights` is the
light list of the shot with its count clamped to `c_max_forward_lights`. -/
def setup_lights (c_max_forward_lights c_max_shadows : Nat) (ops : FloatOps F V M C)
    (b : BlockLight F V C) (render : Render F V M C) (view : M) : BlockLight F V C :=
  let m_count := min render.m_shot.m_lights.length c_max_forward_lights
  let lights := render.m_shot.m_lights.take m_count
  let b1 := { b with m_zones := { b.m_zones with m_light_counts := fun _ => 0 } }
  let b2 := { b1 with m_gpu_lights := [], m_gpu_shadows := [] }
  let b3 := span_loop (setup_lights_bin ops view) lights 0 b2
  let b4 := span_loop (setup_lights_shadow c_max_shadows ops) lights 0 b3
  { b4 with
    m_light_count := m_count % 2 ^ 16
    m_zones := { b4.m_zones with m_light_count := m_count % 2 ^ 16 } }

/-- `BlockLight::upload_lights`: packs `m_gpu_lights` and `m_gpu_shadows` into a
GPU texture when `LIGHTS_BUFFER` is on; the block state modelled here is not
written. -/
def upload_lights (b : BlockLight F V C) (_render : Render F V M C) : BlockLight F V C := b

/-- `BlockLight::upload_zones`: packs the scene environment into a GPU texture
when `ZONES_BUFFER` is on; the block state modelled here is not written. -/
def upload_zones (b : BlockLight F V C) (_render : Render F V M C) : BlockLight F V C := b

/-- The expression `m_direct_lights.empty() ? nullptr : m_direct_lights[m_direct_light_index]`
of lines 85 and 93. An index outside the vector reads as null here; the value
read at line 85 is not used before line 93 overwrites it, with the index set to
0 at line 91. -/
def select_direct_light (b : BlockLight F V C) : Option (Light F V C) :=
  if b.m_direct_lights.isEmpty then none else b.m_direct_lights[b.m_direct_light_index]?

/-- The first part of `BlockLight::begin_render` (lines 78-85): clear the tracked
direct lights, collect the Direct lights of the shot in shot order, select the
active direct light. -/
def begin_render_classify (b : BlockLight F V C) (render : Render F V M C) :
    BlockLight F V C :=
  let b1 := { b with m_direct_lights := [] }
  let b2 := render.m_shot.m_lights.foldl
    (fun (s : BlockLight F V C) light =>
      if light.m_type = LightType.Direct then
        { s with m_direct_lights := s.m_direct_lights ++ [light] }
      else s) b1
  { b2 with m_direct_light := select_direct_light b2 }

/-- `BlockLight::begin_render` (lines 74-104) in the default configuration, where
`MULTIPLE_DIRECT_LIGHTS` is not defined. -/
def begin_render (c_max_forward_lights c_max_shadows : Nat) (ops : FloatOps F V M C)
    (b : BlockLight F V C) (render : Render F V M C) : BlockLight F V C :=
  let b3 := begin_render_classify b render
  let b4 := setup_lights c_max_forward_lights c_max_shadows ops b3 render
    render.m_camera.m_transform
  let b5 := upload_lights b4 render
  let b6 := upload_zones b5 render
  let b7 := { b6 with m_direct_light_index := 0 }
  { b7 with m_direct_light := select_direct_light b7 }

/-- `BlockLight::options` (lines 111-123). -/
def options (b : BlockLight F V C) (render : Render F V M C)
    (shader_version : ShaderVersion) : ShaderVersion :=
  let sv1 :=
    if render.m_camera.m_clustered then
      shader_version.set_option 0 ShaderOption.CLUSTERED true
    else shader_version
  let sv2 :=
    if (match render.m_env with
        | some env => env.m_fog.m_enabled
        | none => false) then
      sv1.set_option b.m_index ShaderOption.FOG true
    else sv1
  let cull := b.m_direct_light.isNone || false
  if !cull then sv2.set_option b.m_index ShaderOption.DIRECT_LIGHT true else sv2

end Operations

/-! ## Render passes and GPU state -/

/-- The data kinds `T` of the singletons `GpuState<T>::me` defined at lines
33-38. -/
inductive GpuStateKind where
  | Radiance
  | Fog
  | Zone
  | ZoneLights
  | GpuLight
  deriving DecidableEq

/-- The texture samplers the block binds. -/
inductive TextureSampler where
  | Zones
  | Lights
  deriving DecidableEq

/-- The calls the block makes on its GPU-side collaborators: `u_shot.createUniforms()`,
`init`, `pack` and `upload` on a `GpuState` singleton, `bgfx::setViewUniform` and
`Encoder::setTexture` for a sampler, and the cluster submission of the camera. -/
inductive GpuCall where
  | createUniforms
  | init (kind : GpuStateKind)
  | pack (kind : GpuStateKind)
  | upload (kind : GpuStateKind)
  | setViewUniform (sampler : TextureSampler)
  | setTexture (sampler : TextureSampler)
  | clusters_submit
  deriving DecidableEq

/-- The compile-time flags `ZONES_BUFFER`, `LIGHTS_BUFFER` and
`ZONES_LIGHTS_BUFFER`; they are defined in a header that is missing from the
sources and are parameters of the embedding. -/
structure BufferFlags where
  ZONES_BUFFER : Bool
  LIGHTS_BUFFER : Bool
  ZONES_LIGHTS_BUFFER : Bool
  deriving DecidableEq

/-- `BlockLight::init_block` (lines 56-72): the calls it makes, in order. -/
def init_block (flags : BufferFlags) : List GpuCall :=
  [GpuCall.createUniforms]
    ++ (if !flags.ZONES_BUFFER then
          [GpuCall.init GpuStateKind.Radiance, GpuCall.init GpuStateKind.Fog]
        else [])
    ++ (if !flags.LIGHTS_BUFFER then [GpuCall.init GpuStateKind.GpuLight] else [])
    ++ (if !flags.ZONES_LIGHTS_BUFFER then [GpuCall.init GpuStateKind.ZoneLights] else [])

/-- The GPU calls of `BlockLight::upload_lights` (lines 216-222). -/
def upload_lights_calls (flags : BufferFlags) : List GpuCall :=
  if flags.LIGHTS_BUFFER then [GpuCall.pack GpuStateKind.GpuLight] else []

/-- The GPU calls of `BlockLight::upload_zones` (lines 224-232). -/
def upload_zones_calls (flags : BufferFlags) : List GpuCall :=
  if flags.ZONES_BUFFER then [GpuCall.pack GpuStateKind.Zone] else []

/-- The GPU calls of `BlockLight::begin_render`: those of `upload_lights`, then
those of `upload_zones` (lines 88-89). -/
def begin_render_calls (flags : BufferFlags) : List GpuCall :=
  upload_lights_calls flags ++ upload_zones_calls flags

/-- `BlockLight::commit_lights` (lines 234-241). -/
def commit_lights (flags : BufferFlags) : List GpuCall :=
  if flags.LIGHTS_BUFFER then [GpuCall.setTexture TextureSampler.Lights] else []

/-- `BlockLight::commit_zones` (lines 243-251). -/
def commit_zones (flags : BufferFlags) : List GpuCall :=
  if flags.ZONES_BUFFER then [GpuCall.setTexture TextureSampler.Zones] else []

section PassOperations

variable {F V M C : Type}

/-- Modelled from the spec: `GpuState<GpuLight>::upload`, declared in a header
that is missing from the sources. `submit` hands it `m_gpu_lights` and
`m_gpu_shadows` through `const_cast`; the packer serialises the records it is
given and uploads them, and the two vectors come back as they were. -/
def gpu_light_upload (lights : List (GpuLight F V)) (shadows : List (GpuLightShadow F)) :
    List (GpuLight F V) × List (GpuLightShadow F) :=
  (lights, shadows)

/-- `BlockLight::begin_pass` (lines 106-109): the body only marks `render` as
unused. -/
def begin_pass (b : BlockLight F V C) (_render : Render F V M C) : BlockLight F V C := b

/-- `BlockLight::submit(Render&, const Pass&)` (lines 125-152), a const member
function: the block after the call and the GPU calls made, in order. -/
def submit (flags : BufferFlags) (b : BlockLight F V C) (render : Render F V M C) :
    BlockLight F V C × List GpuCall :=
  let calls1 :=
    if !flags.ZONES_LIGHTS_BUFFER then [GpuCall.upload GpuStateKind.ZoneLights] else []
  let calls2 := if !flags.ZONES_BUFFER then [GpuCall.upload GpuStateKind.Zone] else []
  let uploaded := gpu_light_upload b.m_gpu_lights b.m_gpu_shadows
  let b3 :=
    if !flags.LIGHTS_BUFFER then
      { b with m_gpu_lights := uploaded.1, m_gpu_shadows := uploaded.2 }
    else b
  let calls3 := if !flags.LIGHTS_BUFFER then [GpuCall.upload GpuStateKind.GpuLight] else []
  let calls4 :=
    if flags.ZONES_BUFFER then [GpuCall.setViewUniform TextureSampler.Zones] else []
  let calls5 :=
    if flags.LIGHTS_BUFFER then [GpuCall.setViewUniform TextureSampler.Lights] else []
  let calls6 := if render.m_camera.m_clustered then [GpuCall.clusters_submit] else []
  (b3, calls1 ++ calls2 ++ calls3 ++ calls4 ++ calls5 ++ calls6)

/-- `BlockLight::submit(Render&, const DrawElement&, const Pass&)` (lines 154-166),
a const member function: the block after the call and the GPU calls made, in
order. -/
def submit_element (flags : BufferFlags) (b : BlockLight F V C) (render : Render F V M C) :
    BlockLight F V C × List GpuCall :=
  let calls1 := if render.m_camera.m_clustered then [GpuCall.clusters_submit] else []
  (b, calls1 ++ commit_zones flags ++ commit_lights flags)

/-- The callbacks the pipeline invokes on the block between two `begin_render`. -/
inductive PassCall where
  | begin_pass
  | options (shader_version : ShaderVersion)
  | submit
  | submit_element

/-- The block after one callback. `BlockLight::options` is a const member
function whose only output is the shader version: the block is as before. -/
def run_pass_call (flags : BufferFlags) (render : Render F V M C) (b : BlockLight F V C) :
    PassCall → BlockLight F V C
  | PassCall.begin_pass => begin_pass b render
  | PassCall.options _ => b
  | PassCall.submit => (submit flags b render).1
  | PassCall.submit_element => (submit_element flags b render).1

/-- The block after a sequence of callbacks of one frame. -/
def run_pass_calls (flags : BufferFlags) (render : Render F V M C) (b : BlockLight F V C)
    (calls : List PassCall) : BlockLight F V C :=
  calls.foldl (run_pass_call flags render) b

end PassOperations

/-! ## Renderer table of GfxSystem (src/src/gfx/GfxSystem.cpp) -/

/-- The enum `Shading`, declared in a header that is missing from the sources:
`Solid` and `Clear` are the members the code names, `other n` stands for the
remaining ones. -/
inductive Shading where
  | Solid
  | Clear
  | other (n : Nat)
  deriving DecidableEq

/-- The render functions, as the function pointers `RenderFunc` holds:
`render_solid` and `render_clear` are the two the code names, `other n` stands
for any other function. -/
inductive RenderFunc where
  | render_solid
  | render_clear
  | other (n : Nat)
  deriving DecidableEq

/-- The state of `GfxSystem` read and written by the renderer table operations
and by `init_pipeline`: the table `m_impl->m_renderers` (an entry never assigned
is a null function pointer), the blocks of `m_renderer` by number, and the
material store reduced to the (name, shader) pairs fetched. For the file lookup
and the frame loop it also holds the base resource path `m_resource_path`, the
vector `m_impl->m_resource_paths`, the contexts `m_impl->m_contexts` by number,
the flag `m_initialized` and the program store `m_impl->m_programs`: a
`unique` pointer, null (none) until `GfxSystem::init` creates the store,
otherwise the programs of its `m_vector` by number. -/
structure GfxSystem where
  m_renderers : Shading → Option RenderFunc
  m_gfx_blocks : List Nat
  m_materials : List (String × String)
  m_resource_path : String := ""
  m_resource_paths : List String := []
  m_contexts : List Nat := []
  m_initialized : Bool := false
  m_programs : Option (List Nat) := none

/-- `GfxSystem::set_renderer` (lines 229-232). -/
def GfxSystem.set_renderer (gfx : GfxSystem) (shading : Shading) (renderer : RenderFunc) :
    GfxSystem :=
  { gfx with m_renderers := Function.update gfx.m_renderers shading (some renderer) }

/-- `GfxSystem::renderer` (lines 234-237): the function the entry points to; none
when the entry is null. -/
def GfxSystem.renderer (gfx : GfxSystem) (shading : Shading) : Option RenderFunc :=
  gfx.m_renderers shading

/-- `GfxSystem::fetch_material`: fetches the material `name` from the store and
gives it the program of `shader`; the table of renderers is not touched. -/
def GfxSystem.fetch_material (gfx : GfxSystem) (name shader : String) : GfxSystem :=
  { gfx with m_materials := gfx.m_materials ++ [(name, shader)] }

/-- `GfxSystem::create_debug_materials` (lines 380-390). -/
def GfxSystem.create_debug_materials (gfx : GfxSystem) : GfxSystem :=
  let g1 := gfx.fetch_material "debug" "solid"
  let g2 := g1.fetch_material "debug_alpha" "solid"
  g2.fetch_material "debug_pbr" "pbr/pbr"

/-- `GfxSystem::init_pipeline` (lines 206-221). The pipeline declaration `decl`
and the `init_block` of each block are code outside the sources: `decl` and
`block_init` are arbitrary functions on the state; `deferred` is the value of
`MUD_GFX_DEFERRED`. -/
def GfxSystem.init_pipeline (deferred : Bool) (block_init : Nat → GfxSystem → GfxSystem)
    (gfx : GfxSystem) (decl : GfxSystem → Bool → GfxSystem) : GfxSystem :=
  let g1 := decl gfx deferred
  let g2 := g1.m_gfx_blocks.foldl (fun g block => block_init block g) g1
  let g3 := g2.set_renderer Shading.Solid RenderFunc.render_solid
  let g4 := g3.set_renderer Shading.Clear RenderFunc.render_clear
  g4.create_debug_materials

/-! ## Writes of the binning loop -/

section BinWrites

variable {F V M C : Type}

/-- The entries of `m_light_indices` written by the first loop of `setup_lights`,
in order: at each iteration the row `size_t(light_type_count)` and the column
`size_t(light.m_type)` of the assignment of line 195, the state advancing by the
loop body. -/
def setup_lights_bin_writes (ops : FloatOps F V M C) (view : M) :
    List (Light F V C) → Nat → BlockLight F V C → List (Nat × Fin 4)
  | [], _, _ => []
  | light :: rest, index, b =>
    (b.m_zones.m_light_counts light.m_type.index, light.m_type.index) ::
      setup_lights_bin_writes ops view rest (index + 1) (setup_lights_bin ops view b index light)

/-- The entries of `m_light_indices` written by one call of `setup_lights`: those
of its first loop, run on the clamped span from the cleared counts. -/
def setup_lights_writes (c_max_forward_lights : Nat) (ops : FloatOps F V M C)
    (b : BlockLight F V C) (render : Render F V M C) (view : M) : List (Nat × Fin 4) :=
  let m_count := min render.m_shot.m_lights.length c_max_forward_lights
  let lights := render.m_shot.m_lights.take m_count
  let b1 := { b with m_zones := { b.m_zones with m_light_counts := fun _ => 0 } }
  let b2 := { b1 with m_gpu_lights := [], m_gpu_shadows := [] }
  setup_lights_bin_writes ops view lights 0 b2

end BinWrites

/-! ## Translate action of the editor (src/src/edit/Tools/TranslateTool.cpp) -/

/-- The type `Transform`, declared in a header that is missing from the sources:
a position, a rotation and a scale. -/
structure Transform (V Q : Type) where
  m_position : V
  m_rotation : Q
  m_scale : V
  deriving DecidableEq

/-- The state of a `TranslateAction`: the targets inherited from
`TransformAction`, by number, and the translation. Vectors live in an additive
group `V`: the arithmetic is exact. -/
structure TranslateAction (V : Type) where
  m_targets : List Nat
  m_translation : V
  deriving DecidableEq

section Translate

variable {V Q : Type} [AddCommGroup V]

/-- `TranslateAction::TranslateAction` (lines 16-19); `Zero3` is the zero vector. -/
def TranslateAction.construct (targets : List Nat) : TranslateAction V :=
  { m_targets := targets, m_translation := 0 }

/-- `TranslateAction::apply` (lines 21-24): the action and the transform after the
call. -/
def TranslateAction.apply (action : TranslateAction V) (transform : Transform V Q) :
    TranslateAction V × Transform V Q :=
  (action, { transform with m_position := transform.m_position + action.m_translation })

/-- `TranslateAction::undo` (lines 26-29): the action and the transform after the
call. -/
def TranslateAction.undo (action : TranslateAction V) (transform : Transform V Q) :
    TranslateAction V × Transform V Q :=
  (action, { transform with m_position := transform.m_position + -action.m_translation })

/-- `TranslateAction::update` (lines 31-34); `finish` is the parameter `end`. -/
def TranslateAction.update (action : TranslateAction V) (start finish : V) :
    TranslateAction V :=
  { action with m_translation := finish - start }

end Translate

/-! ## File lookup and frame loop of GfxSystem -/

/-- Modelled from the spec: `LocatedFile`, declared in a header that is missing
from the sources, holds the path, the file, the extension and the extension
index reported by `locate_file`; `m_located` tells a located file from the empty
value `{}`. -/
structure LocatedFile where
  m_located : Bool
  m_location : String
  m_name : String
  m_extension : String
  m_extension_index : Nat
  deriving DecidableEq

/-- The empty `LocatedFile`, the value of `return {}`. -/
def LocatedFile.empty : LocatedFile :=
  { m_located := false, m_location := "", m_name := "", m_extension := "",
    m_extension_index := 0 }

/-- `GfxSystem::add_resource_path` (lines 223-227); the `printf` is not modelled. -/
def GfxSystem.add_resource_path (gfx : GfxSystem) (path : String) (relative : Bool) :
    GfxSystem :=
  { gfx with
    m_resource_paths := gfx.m_resource_paths ++
      [if relative then gfx.m_resource_path ++ "/" ++ path else path] }

/-- The inner loop of `GfxSystem::locate_file` (lines 354-361) from index `i`:
the value returned from inside the loop, none when the loop runs to its end.
`file_exists` is the file system test, a parameter. -/
def locate_file_extensions (file_exists : String → Bool) (path file : String) :
    List String → Nat → Option LocatedFile
  | [], _ => none
  | extension :: rest, i =>
    let filepath := path ++ "/" ++ file ++ extension
    if file_exists filepath then
      some { m_located := true, m_location := path, m_name := file, m_extension := extension,
             m_extension_index := i }
    else locate_file_extensions file_exists path file rest (i + 1)

/-- The outer loop of `GfxSystem::locate_file` (line 353): the value returned from
inside the loops, none when they run to their end. -/
def locate_file_paths (file_exists : String → Bool) (file : String)
    (extensions : List String) : List String → Option LocatedFile
  | [] => none
  | path :: rest =>
    match locate_file_extensions file_exists path file extensions 0 with
    | some located => some located
    | none => locate_file_paths file_exists file extensions rest

/-- `GfxSystem::locate_file(file, extensions)` (lines 351-363). -/
def GfxSystem.locate_file (file_exists : String → Bool) (gfx : GfxSystem) (file : String)
    (extensions : List String) : LocatedFile :=
  match locate_file_paths file_exists file extensions gfx.m_resource_paths with
  | some located => located
  | none => LocatedFile.empty

/-- `GfxSystem::locate_file(file)` (lines 365-368). -/
def GfxSystem.locate_file_default (file_exists : String → Bool) (gfx : GfxSystem)
    (file : String) : LocatedFile :=
  gfx.locate_file file_exists file [""]

/-- The candidates of a lookup as the specification lists them: resource paths in
order, for each path the extensions in order, each with its index. -/
def locate_candidates (paths extensions : List String) : List (String × String × Nat) :=
  paths.flatMap (fun path =>
    (extensions.enumFrom 0).map (fun indexed => (path, indexed.2, indexed.1)))

/-- The file path of a candidate: path + "/" + file + extension. -/
def candidate_path (file : String) (candidate : String × String × Nat) : String :=
  candidate.1 ++ "/" ++ file ++ candidate.2.1

/-- `GfxSystem::GfxSystem` (lines 113-123): a fresh `Impl`, whose vectors are
empty and whose `unique` pointers are null, no block, not initialised, and the
resource path added to the resource paths. -/
def GfxSystem.construct (resource_path : String) : GfxSystem :=
  GfxSystem.add_resource_path
    { m_renderers := fun _ => none
      m_gfx_blocks := []
      m_materials := []
      m_resource_path := resource_path
      m_resource_paths := []
      m_contexts := []
      m_initialized := false
      m_programs := none }
    resource_path false

/-- `GfxSystem::init` (lines 151-199) reduced to the two fields the frame loop
depends on: line 165 creates the program store, and `BgfxSystem::init`, which is
missing from the sources, is taken to set `m_initialized`, the flag the
constructor of `GfxWindow` tests. The other stores, the textures and the models
it creates are not modelled. -/
def GfxSystem.init (gfx : GfxSystem) : GfxSystem :=
  { gfx with m_initialized := true, m_programs := some [] }

/-- The effect of `GfxWindow::GfxWindow` on the graphics system (lines 91-95): the
first window initialises the system, and the new context is pushed at the back
of the contexts. No other code of the sources writes `m_contexts` or creates the
program store. -/
def GfxSystem.register_context (gfx : GfxSystem) (context : Nat) : GfxSystem :=
  let g1 := if !gfx.m_initialized then gfx.init else gfx
  { g1 with m_contexts := g1.m_contexts ++ [context] }

/-- The state of a run of `GfxSystem::begin_frame`: the world `W` the external
calls act on, the local `pursue`, and the calls of `GfxWindow::begin_frame` made
so far, each with the context and the value it returned. -/
structure FrameRun (W : Type) where
  world : W
  pursue : Bool
  calls : List (Nat × Bool)

section BeginFrame

variable {W : Type}

/-- Body of the loop of lines 271-272: `pursue &= context->begin_frame()`. The
call is made whatever the value of `pursue`. -/
def begin_frame_context (context_begin_frame : W → Nat → Bool × W) (run : FrameRun W)
    (context : Nat) : FrameRun W :=
  let result := context_begin_frame run.world context
  { world := result.2
    pursue := run.pursue && result.1
    calls := run.calls ++ [(context, result.1)] }

/-- `GfxSystem::begin_frame` (lines 249-288) with `MUD_GFX_THREADED` not defined
(its define is commented out at line 46). Line 256 dereferences
`m_impl->m_programs`: with a null store the function does not return (none).
Otherwise it runs `Program::update` on every program of the store (lines
256-257), `begin_frame` on every block (lines 263-264), then the loop over the
contexts (lines 271-272), and returns `pursue`. `program_update`,
`block_begin_frame` and `context_begin_frame` are the three external calls,
acting on the world; the frame record assigned at line 251 is part of that
world. -/
def GfxSystem.begin_frame (program_update : W → Nat → W) (block_begin_frame : W → Nat → W)
    (context_begin_frame : W → Nat → Bool × W) (gfx : GfxSystem) (world : W) :
    Option (FrameRun W) :=
  match gfx.m_programs with
  | none => none
  | some programs =>
    let w1 := programs.foldl program_update world
    let w2 := gfx.m_gfx_blocks.foldl block_begin_frame w1
    some (gfx.m_contexts.foldl (begin_frame_context context_begin_frame)
      { world := w2, pursue := true, calls := [] })

end BeginFrame

/-! ## Concrete inputs

An instance of the float operations over the integers and a few lights, used to
evaluate the operations on concrete frames. -/

/-- Integer stand-ins for the math functions: translation for `mulp`, scaling
for `muln`, identity or simple arithmetic elsewhere. -/
def intOps : FloatOps Int Int Int Int where
  mulp := fun m v => m + v
  muln := fun m v => m * v
  to_linear := fun c => c
  scale := fun c e => c * e
  to_vec3 := fun c => c
  to_radians := fun a => a
  cos := fun a => 1 - a
  of_size := fun n => (n : Int)
  zero := 0
  one := 1

/-- A light of the given type whose numeric fields are derived from `n`, so that
lights built from different `n` are different records. -/
def sampleLight (t : LightType) (n : Int) : Light Int Int Int where
  m_node := { position := n, direction := n + 1 }
  m_type := t
  m_colour := 2
  m_range := 10 * n
  m_energy := 3
  m_specular := n + 2
  m_attenuation := n + 3
  m_spot_angle := n + 4
  m_spot_attenuation := n + 5
  m_shadow_bias := n + 6

/-- A render request with the given lights, camera transform 7, not clustered,
no environment. -/
def sampleRender (lights : List (Light Int Int Int)) : Render Int Int Int Int where
  m_shot := { m_lights := lights }
  m_camera := { m_transform := 7, m_clustered := false }
  m_env := none

/-- A block state holding leftovers of an earlier frame: one tracked direct
light, one snapshot, non-zero counts and a table filled with 99. -/
def staleBlock : BlockLight Int Int Int where
  m_index := 3
  m_direct_lights := [sampleLight LightType.Direct 40]
  m_direct_light := some (sampleLight LightType.Direct 40)
  m_direct_light_index := 0
  m_zones :=
    { m_light_count := 5, m_light_counts := fun _ => 5, m_light_indices := fun _ _ => 99 }
  m_gpu_lights :=
    [{ position := 0, range := 0, energy := 0, specular := 0, direction := 0,
       attenuation := 0, spot_attenuation := 0, spot_cutoff := 0 }]
  m_gpu_shadows := []
  m_light_count := 5

/-- The frame of the round-trip scenario: 3 point lights, 2 directional lights
and 1 spot light, interleaved. -/
def scenarioLights : List (Light Int Int Int) :=
  [sampleLight LightType.Point 1, sampleLight LightType.Direct 2,
   sampleLight LightType.Point 3, sampleLight LightType.Spot 4,
   sampleLight LightType.Direct 5, sampleLight LightType.Point 6]

/-- A shader version with no option set. -/
def noOptions : ShaderVersion where
  m_options := fun _ _ => false

/-- The build with the three buffer flags off. -/
def flagsOff : BufferFlags where
  ZONES_BUFFER := false
  LIGHTS_BUFFER := false
  ZONES_LIGHTS_BUFFER := false

/-- The build with the three buffer flags on. -/
def flagsOn : BufferFlags where
  ZONES_BUFFER := true
  LIGHTS_BUFFER := true
  ZONES_LIGHTS_BUFFER := true

/-- A graphics system with an empty renderer table, two blocks and no material. -/
def emptyGfx : GfxSystem where
  m_renderers := fun _ => none
  m_gfx_blocks := [0, 1]
  m_materials := []

/-- A pipeline declaration that registers a renderer for `Shading.other 0` and
one for `Shading.Solid`. -/
def sampleDecl (gfx : GfxSystem) (_deferred : Bool) : GfxSystem :=
  (gfx.set_renderer (Shading.other 0) (RenderFunc.other 5)).set_renderer Shading.Solid
    (RenderFunc.other 6)

/-- A render request without lights, with a clustered camera and an environment
whose fog is enabled. -/
def fogRender : Render Int Int Int Int where
  m_shot := { m_lights := [] }
  m_camera := { m_transform := 7, m_clustered := true }
  m_env := some { m_fog := { m_enabled := true } }

/-- The first four lights of the scenario followed by another tail. -/
def scenarioVariant : List (Light Int Int Int) :=
  [sampleLight LightType.Point 1, sampleLight LightType.Direct 2,
   sampleLight LightType.Point 3, sampleLight LightType.Spot 4,
   sampleLight LightType.Spot 9]

/-- A frame of one point light whose range is negative. -/
def negativeRangeLights : List (Light Int Int Int) :=
  [sampleLight LightType.Point (-1)]

/-- A translate action over integer vectors holding the translation (1, -2, 3). -/
def sampleAction : TranslateAction (Int × Int × Int) where
  m_targets := [0]
  m_translation := (1, -2, 3)

/-- A transform over integer vectors at position (10, 20, 30). -/
def sampleTransform : Transform (Int × Int × Int) Int where
  m_position := (10, 20, 30)
  m_rotation := 5
  m_scale := (1, 1, 1)

/-- A graphics system with two resource paths and three contexts, initialised,
with one program in its store. -/
def filesGfx : GfxSystem where
  m_renderers := fun _ => none
  m_gfx_blocks := []
  m_materials := []
  m_resource_path := "data"
  m_resource_paths := ["data", "data/extra"]
  m_contexts := [4, 5, 6]
  m_initialized := true
  m_programs := some [7]

/-- A file system in which only "data/extra/shader.sc" and "data/extra/shader.bin"
exist. -/
def sampleFiles (filepath : String) : Bool :=
  filepath = "data/extra/shader.sc" || filepath = "data/extra/shader.bin"

/-- A window that refuses the frame for context 5 and counts the calls in the world. -/
def sampleContextBeginFrame (world : Nat) (context : Nat) : Bool × Nat :=
  (context != 5, world + 1)

/-- A program update or a block `begin_frame` that adds 100 to the world. -/
def sampleUpdate (world : Nat) (_item : Nat) : Nat :=
  world + 100

/-! ## Binning invariant -/

/-- The binning invariant of the first loop of `setup_lights`, for the lights
`pre` processed so far and the zone record `z`: the count of a component is the
number of processed lights with that type index; every slot below a count holds
the index of a processed light of that type; the slots of one type hold
increasing indices; every processed light sits in a slot of its type. -/
structure BinInv {F V C : Type} (pre : List (Light F V C)) (z : ZoneLights) : Prop where
  counts : ∀ c : Fin 4,
    z.m_light_counts c = pre.countP (fun light => decide (light.m_type.index = c))
  valid : ∀ (c : Fin 4) (k : Nat), k < z.m_light_counts c →
    ∃ light, pre[z.m_light_indices k c]? = some light ∧ light.m_type.index = c
  mono : ∀ (c : Fin 4) (k1 k2 : Nat), k1 < k2 → k2 < z.m_light_counts c →
    z.m_light_indices k1 c < z.m_light_indices k2 c
  cover : ∀ (i : Nat) (light : Light F V C), pre[i]? = some light →
    ∃ k, k < z.m_light_counts light.m_type.index ∧
      z.m_light_indices k light.m_type.index = i

/-! ## Loop lemmas -/

section Lemmas

variable {F V M C : Type}

theorem span_loop_append {σ α : Type} (body : σ → Nat → α → σ) (xs : List α) (x : α)
    (index : Nat) (s : σ) :
    span_loop body (xs ++ [x]) index s
      = body (span_loop body xs index s) (index + xs.length) x := by
  induction xs generalizing index s with
  | nil => simp [span_loop]
  | cons y ys ih =>
    have h := ih (index + 1) (body s index y)
    have e : index + 1 + ys.length = index + (ys.length + 1) := by omega
    rw [e] at h
    simpa [span_loop] using h

theorem LightType.index_injective : Function.Injective LightType.index := by
  intro a b h
  cases a <;> cases b <;> first | rfl | (exact absurd h (by decide))

theorem LightType.index_eq_iff (a b : LightType) : a.index = b.index ↔ a = b :=
  LightType.index_injective.eq_iff

/-- The first loop appends one snapshot per light, in order. -/
theorem bin_loop_gpu_lights (ops : FloatOps F V M C) (view : M) (lights : List (Light F V C))
    (index : Nat) (b : BlockLight F V C) :
    (span_loop (setup_lights_bin ops view) lights index b).m_gpu_lights
      = b.m_gpu_lights ++ lights.map (fun light =>
          { position := ops.mulp view light.m_node.position
            range := light.m_range
            energy := ops.to_vec3 (ops.scale (ops.to_linear light.m_colour) light.m_energy)
            specular := light.m_specular
            direction := ops.muln view light.m_node.direction
            attenuation := light.m_attenuation
            spot_attenuation := light.m_spot_attenuation
            spot_cutoff := ops.cos (ops.to_radians light.m_spot_angle) }) := by
  induction lights generalizing index b with
  | nil => simp [span_loop]
  | cons x xs ih =>
    simp only [span_loop, ih, List.map_cons]
    simp [setup_lights_bin]

/-- The first loop leaves every field but the snapshots and the zone as it is. -/
theorem bin_loop_frame (ops : FloatOps F V M C) (view : M) (lights : List (Light F V C))
    (index : Nat) (b : BlockLight F V C) :
    let b1 := span_loop (setup_lights_bin ops view) lights index b
    b1.m_gpu_shadows = b.m_gpu_shadows ∧ b1.m_direct_lights = b.m_direct_lights ∧
    b1.m_direct_light = b.m_direct_light ∧ b1.m_direct_light_index = b.m_direct_light_index ∧
    b1.m_index = b.m_index ∧ b1.m_light_count = b.m_light_count ∧
    b1.m_zones.m_light_count = b.m_zones.m_light_count := by
  induction lights generalizing index b with
  | nil => simp [span_loop]
  | cons x xs ih =>
    have h := ih (index + 1) (setup_lights_bin ops view b index x)
    simp only [span_loop]
    simpa [setup_lights_bin] using h

/-- The second loop appends one shadow placeholder per light, in order. -/
theorem shadow_loop_gpu_shadows (c_max_shadows : Nat) (ops : FloatOps F V M C)
    (lights : List (Light F V C)) (index : Nat) (b : BlockLight F V C) :
    (span_loop (setup_lights_shadow c_max_shadows ops) lights index b).m_gpu_shadows
      = b.m_gpu_shadows ++ lights.map (fun light =>
          { matrix := ops.of_size c_max_shadows
            bias := light.m_shadow_bias
            radius := ops.one
            atlas_offset := (ops.zero, ops.zero)
            atlas_scale := (ops.zero, ops.zero) }) := by
  induction lights generalizing index b with
  | nil => simp [span_loop]
  | cons x xs ih =>
    simp only [span_loop, ih, List.map_cons]
    simp [setup_lights_shadow]

/-- The second loop leaves every field but the shadow placeholders as it is. -/
theorem shadow_loop_frame (c_max_shadows : Nat) (ops : FloatOps F V M C)
    (lights : List (Light F V C)) (index : Nat) (b : BlockLight F V C) :
    let b1 := span_loop (setup_lights_shadow c_max_shadows ops) lights index b
    b1.m_gpu_lights = b.m_gpu_lights ∧ b1.m_zones = b.m_zones ∧
    b1.m_direct_lights = b.m_direct_lights ∧
    b1.m_direct_light = b.m_direct_light ∧ b1.m_direct_light_index = b.m_direct_light_index ∧
    b1.m_index = b.m_index ∧ b1.m_light_count = b.m_light_count := by
  induction lights generalizing index b with
  | nil => simp [span_loop]
  | cons x xs ih =>
    have h := ih (index + 1) (setup_lights_shadow c_max_shadows ops b index x)
    simp only [span_loop]
    simpa [setup_lights_shadow] using h

end Lemmas

section ZoneLemmas

variable {F V M C : Type}

theorem bin_step_counts (ops : FloatOps F V M C) (view : M) (b : BlockLight F V C)
    (index : Nat) (x : Light F V C) (c : Fin 4) :
    (setup_lights_bin ops view b index x).m_zones.m_light_counts c
      = if c = x.m_type.index then b.m_zones.m_light_counts x.m_type.index + 1
        else b.m_zones.m_light_counts c := by
  simp only [setup_lights_bin, Function.update_apply]

theorem bin_step_indices (ops : FloatOps F V M C) (view : M) (b : BlockLight F V C)
    (index : Nat) (x : Light F V C) (k : Nat) (c : Fin 4) :
    (setup_lights_bin ops view b index x).m_zones.m_light_indices k c
      = if k = b.m_zones.m_light_counts x.m_type.index ∧ c = x.m_type.index then index
        else b.m_zones.m_light_indices k c := by
  simp only [setup_lights_bin]
  by_cases hk : k = b.m_zones.m_light_counts x.m_type.index
  · by_cases hc : c = x.m_type.index
    · subst hc; subst hk; simp
    · subst hk
      simp [hc, Function.update_noteq hc]
  · simp [hk, Function.update_noteq hk]

theorem BinInv.nil (z : ZoneLights) (hz : ∀ c, z.m_light_counts c = 0) :
    BinInv ([] : List (Light F V C)) z where
  counts := by intro c; simp [hz]
  valid := by intro c k hk; rw [hz] at hk; omega
  mono := by intro c k1 k2 _ hk; rw [hz] at hk; omega
  cover := by intro i light h; simp at h

theorem BinInv.step (ops : FloatOps F V M C) (view : M) (pre : List (Light F V C))
    (b : BlockLight F V C) (x : Light F V C) (h : BinInv pre b.m_zones) :
    BinInv (pre ++ [x]) (setup_lights_bin ops view b pre.length x).m_zones where
  counts := by
    intro c
    rw [bin_step_counts, List.countP_append, ← h.counts c]
    by_cases hc : c = x.m_type.index
    · subst hc; simp [List.countP_cons]
    · have hc2 : ¬ x.m_type.index = c := fun e => hc e.symm
      simp [hc, hc2, List.countP_cons]
  valid := by
    intro c k hk
    rw [bin_step_counts] at hk
    rw [bin_step_indices]
    by_cases hkc : k = b.m_zones.m_light_counts x.m_type.index ∧ c = x.m_type.index
    · refine ⟨x, ?_, hkc.2.symm⟩
      simp [hkc]
    · have hk2 : k < b.m_zones.m_light_counts c := by
        by_cases hc : c = x.m_type.index
        · rw [if_pos hc] at hk
          have : k ≠ b.m_zones.m_light_counts x.m_type.index := fun e => hkc ⟨e, hc⟩
          rw [hc]; omega
        · rw [if_neg hc] at hk; exact hk
      obtain ⟨light, hl, ht⟩ := h.valid c k hk2
      refine ⟨light, ?_, ht⟩
      rw [if_neg hkc]
      have hlt : b.m_zones.m_light_indices k c < pre.length := by
        by_contra hge
        rw [List.getElem?_eq_none (by omega)] at hl
        exact Option.noConfusion hl
      rw [List.getElem?_append_left hlt]
      exact hl
  mono := by
    intro c k1 k2 h12 hk
    rw [bin_step_counts] at hk
    rw [bin_step_indices, bin_step_indices]
    by_cases hc : c = x.m_type.index
    · rw [if_pos hc] at hk
      subst hc
      have h1 : ¬ (k1 = b.m_zones.m_light_counts x.m_type.index ∧
          x.m_type.index = x.m_type.index) := by
        intro e; omega
      rw [if_neg h1]
      by_cases hk2 : k2 = b.m_zones.m_light_counts x.m_type.index
      · rw [if_pos ⟨hk2, rfl⟩]
        obtain ⟨light, hl, _⟩ := h.valid x.m_type.index k1 (by omega)
        by_contra hge
        rw [List.getElem?_eq_none (by omega)] at hl
        exact Option.noConfusion hl
      · have h2 : ¬ (k2 = b.m_zones.m_light_counts x.m_type.index ∧
            x.m_type.index = x.m_type.index) := fun e => hk2 e.1
        rw [if_neg h2]
        exact h.mono _ k1 k2 h12 (by omega)
    · rw [if_neg hc] at hk
      rw [if_neg (fun e => hc e.2), if_neg (fun e => hc e.2)]
      exact h.mono c k1 k2 h12 hk
  cover := by
    intro i light hi
    by_cases hlt : i < pre.length
    · rw [List.getElem?_append_left hlt] at hi
      obtain ⟨k, hk, hki⟩ := h.cover i light hi
      refine ⟨k, ?_, ?_⟩
      · rw [bin_step_counts]
        split
        · rename_i hc
          rw [hc] at hk; omega
        · exact hk
      · rw [bin_step_indices]
        have hne : ¬ (k = b.m_zones.m_light_counts x.m_type.index ∧
            light.m_type.index = x.m_type.index) := by
          intro e
          rw [e.2] at hk
          omega
        rw [if_neg hne]
        exact hki
    · have hlen : (pre ++ [x]).length = pre.length + 1 := by simp
      have hi2 : i < (pre ++ [x]).length := by
        by_contra hge
        rw [List.getElem?_eq_none (by omega)] at hi
        exact Option.noConfusion hi
      have hie : i = pre.length := by omega
      subst hie
      have hx : light = x := by
        simp at hi
        exact hi.symm
      subst hx
      refine ⟨b.m_zones.m_light_counts light.m_type.index, ?_, ?_⟩
      · rw [bin_step_counts]; simp
      · rw [bin_step_indices]; simp

theorem BinInv.loop (ops : FloatOps F V M C) (view : M) (lights : List (Light F V C))
    (pre : List (Light F V C)) (b : BlockLight F V C) (h : BinInv pre b.m_zones) :
    BinInv (pre ++ lights)
      (span_loop (setup_lights_bin ops view) lights pre.length b).m_zones := by
  induction lights generalizing pre b with
  | nil => simpa [span_loop] using h
  | cons x xs ih =>
    have hstep := BinInv.step ops view pre b x h
    have := ih (pre ++ [x]) (setup_lights_bin ops view b pre.length x) hstep
    simpa [span_loop] using this

end ZoneLemmas

section SetupLemmas

variable {F V M C : Type}

theorem BinInv.congr {pre : List (Light F V C)} {z z1 : ZoneLights}
    (hc : z1.m_light_counts = z.m_light_counts)
    (hi : z1.m_light_indices = z.m_light_indices) (h : BinInv pre z) : BinInv pre z1 where
  counts := by rw [hc]; exact h.counts
  valid := by rw [hc, hi]; exact h.valid
  mono := by rw [hc, hi]; exact h.mono
  cover := by rw [hc, hi]; exact h.cover

/-- The snapshots produced by `setup_lights`: one per light of the clamped span,
in order, whatever the block held before. -/
theorem setup_lights_gpu_lights (c_max_forward_lights c_max_shadows : Nat)
    (ops : FloatOps F V M C) (b : BlockLight F V C) (render : Render F V M C) (view : M) :
    (setup_lights c_max_forward_lights c_max_shadows ops b render view).m_gpu_lights
      = (render.m_shot.m_lights.take
          (min render.m_shot.m_lights.length c_max_forward_lights)).map (fun light =>
          { position := ops.mulp view light.m_node.position
            range := light.m_range
            energy := ops.to_vec3 (ops.scale (ops.to_linear light.m_colour) light.m_energy)
            specular := light.m_specular
            direction := ops.muln view light.m_node.direction
            attenuation := light.m_attenuation
            spot_attenuation := light.m_spot_attenuation
            spot_cutoff := ops.cos (ops.to_radians light.m_spot_angle) }) := by
  simp only [setup_lights]
  rw [(shadow_loop_frame c_max_shadows ops _ 0 _).1, bin_loop_gpu_lights]
  simp

/-- The shadow placeholders produced by `setup_lights`: one per light of the
clamped span, in order, whatever the block held before. -/
theorem setup_lights_gpu_shadows (c_max_forward_lights c_max_shadows : Nat)
    (ops : FloatOps F V M C) (b : BlockLight F V C) (render : Render F V M C) (view : M) :
    (setup_lights c_max_forward_lights c_max_shadows ops b render view).m_gpu_shadows
      = (render.m_shot.m_lights.take
          (min render.m_shot.m_lights.length c_max_forward_lights)).map (fun light =>
          { matrix := ops.of_size c_max_shadows
            bias := light.m_shadow_bias
            radius := ops.one
            atlas_offset := (ops.zero, ops.zero)
            atlas_scale := (ops.zero, ops.zero) }) := by
  simp only [setup_lights]
  rw [shadow_loop_gpu_shadows, (bin_loop_frame ops view _ 0 _).1]
  simp

/-- The zone record left by `setup_lights` satisfies the binning invariant for
the clamped span, whatever the block held before. -/
theorem setup_lights_zone (c_max_forward_lights c_max_shadows : Nat)
    (ops : FloatOps F V M C) (b : BlockLight F V C) (render : Render F V M C) (view : M) :
    BinInv (render.m_shot.m_lights.take
        (min render.m_shot.m_lights.length c_max_forward_lights))
      (setup_lights c_max_forward_lights c_max_shadows ops b render view).m_zones := by
  have h0 := BinInv.loop ops view
    (render.m_shot.m_lights.take (min render.m_shot.m_lights.length c_max_forward_lights))
    [] { b with
          m_zones := { b.m_zones with m_light_counts := fun _ => 0 }
          m_gpu_lights := []
          m_gpu_shadows := [] }
    (BinInv.nil _ (fun _ => rfl))
  simp only [List.nil_append, List.length_nil] at h0
  refine BinInv.congr ?_ ?_ h0
  · simp only [setup_lights]
    rw [(shadow_loop_frame c_max_shadows ops _ 0 _).2.1]
  · simp only [setup_lights]
    rw [(shadow_loop_frame c_max_shadows ops _ 0 _).2.1]

/-- The fields of the block that `setup_lights` does not write. -/
theorem setup_lights_frame (c_max_forward_lights c_max_shadows : Nat)
    (ops : FloatOps F V M C) (b : BlockLight F V C) (render : Render F V M C) (view : M) :
    let out := setup_lights c_max_forward_lights c_max_shadows ops b render view
    out.m_direct_lights = b.m_direct_lights ∧ out.m_direct_light = b.m_direct_light ∧
    out.m_direct_light_index = b.m_direct_light_index ∧ out.m_index = b.m_index := by
  have h1 := shadow_loop_frame c_max_shadows ops
    (render.m_shot.m_lights.take (min render.m_shot.m_lights.length c_max_forward_lights)) 0
    (span_loop (setup_lights_bin ops view)
      (render.m_shot.m_lights.take (min render.m_shot.m_lights.length c_max_forward_lights)) 0
      { b with
          m_zones := { b.m_zones with m_light_counts := fun _ => 0 }
          m_gpu_lights := []
          m_gpu_shadows := [] })
  have h2 := bin_loop_frame ops view
    (render.m_shot.m_lights.take (min render.m_shot.m_lights.length c_max_forward_lights)) 0
    { b with
          m_zones := { b.m_zones with m_light_counts := fun _ => 0 }
          m_gpu_lights := []
          m_gpu_shadows := [] }
  simp only at h1 h2
  simp only [setup_lights]
  refine ⟨?_, ?_, ?_, ?_⟩
  · rw [h1.2.2.1, h2.2.1]
  · rw [h1.2.2.2.1, h2.2.2.1]
  · rw [h1.2.2.2.2.1, h2.2.2.2.1]
  · rw [h1.2.2.2.2.2.1, h2.2.2.2.2.1]

/-- The classification loop of `begin_render` appends the Direct lights, in
order, and writes nothing else. -/
theorem classify_direct_lights (lights : List (Light F V C)) (b : BlockLight F V C) :
    let out := lights.foldl
      (fun (s : BlockLight F V C) light =>
        if light.m_type = LightType.Direct then
          { s with m_direct_lights := s.m_direct_lights ++ [light] }
        else s) b
    out.m_direct_lights
        = b.m_direct_lights ++ lights.filter (fun light => decide (light.m_type = LightType.Direct)) ∧
    out.m_index = b.m_index ∧ out.m_direct_light_index = b.m_direct_light_index := by
  induction lights generalizing b with
  | nil => simp
  | cons x xs ih =>
    simp only [List.foldl_cons]
    by_cases hx : x.m_type = LightType.Direct
    · have := ih { b with m_direct_lights := b.m_direct_lights ++ [x] }
      simp only [hx, if_true] at this ⊢
      simpa [List.filter_cons, hx] using this
    · have := ih b
      simp only [hx, if_false] at this ⊢
      simpa [List.filter_cons, hx] using this

/-- The direct lights tracked after `begin_render`. -/
theorem begin_render_direct_lights (c_max_forward_lights c_max_shadows : Nat)
    (ops : FloatOps F V M C) (b : BlockLight F V C) (render : Render F V M C) :
    (begin_render c_max_forward_lights c_max_shadows ops b render).m_direct_lights
      = render.m_shot.m_lights.filter (fun light => decide (light.m_type = LightType.Direct)) := by
  simp only [begin_render, upload_zones, upload_lights]
  rw [(setup_lights_frame c_max_forward_lights c_max_shadows ops _ render _).1]
  simp only [begin_render_classify]
  simpa using (classify_direct_lights render.m_shot.m_lights { b with m_direct_lights := [] }).1

/-- The snapshots, shadow placeholders and zone record after `begin_render` are
those of the `setup_lights` call it makes with the camera transform. -/
theorem begin_render_setup (c_max_forward_lights c_max_shadows : Nat)
    (ops : FloatOps F V M C) (b : BlockLight F V C) (render : Render F V M C) :
    let out := begin_render c_max_forward_lights c_max_shadows ops b render
    let mid := setup_lights c_max_forward_lights c_max_shadows ops
      (begin_render_classify b render) render render.m_camera.m_transform
    out.m_gpu_lights = mid.m_gpu_lights ∧ out.m_gpu_shadows = mid.m_gpu_shadows ∧
    out.m_zones = mid.m_zones ∧ out.m_light_count = mid.m_light_count ∧
    out.m_index = b.m_index :=
  ⟨rfl, rfl, rfl, rfl, by
    simp only [begin_render, upload_zones, upload_lights]
    rw [(setup_lights_frame c_max_forward_lights c_max_shadows ops _ render _).2.2.2]
    simp only [begin_render_classify]
    exact (classify_direct_lights render.m_shot.m_lights { b with m_direct_lights := [] }).2.1⟩

/-- The component counts add up to the number of lights processed. -/
theorem sum_countP_index (pre : List (Light F V C)) :
    ∑ c : Fin 4, pre.countP (fun light => decide (light.m_type.index = c)) = pre.length := by
  induction pre with
  | nil => simp
  | cons x xs ih =>
    simp only [List.countP_cons, List.length_cons, Finset.sum_add_distrib, ih]
    simp

end SetupLemmas

/-! ## Properties of the light snapshot and of the zone table -/

section Claims

variable {F V M C : Type}

theorem BinInv.inj {pre : List (Light F V C)} {z : ZoneLights} (h : BinInv pre z)
    {c1 c2 : Fin 4} {k1 k2 : Nat} (h1 : k1 < z.m_light_counts c1)
    (h2 : k2 < z.m_light_counts c2)
    (he : z.m_light_indices k1 c1 = z.m_light_indices k2 c2) : k1 = k2 ∧ c1 = c2 := by
  obtain ⟨l1, hl1, ht1⟩ := h.valid c1 k1 h1
  obtain ⟨l2, hl2, ht2⟩ := h.valid c2 k2 h2
  rw [he, hl2] at hl1
  have hl : l2 = l1 := Option.some.inj hl1
  have hc : c1 = c2 := by rw [← ht1, ← ht2, hl]
  subst hc
  refine ⟨?_, rfl⟩
  rcases Nat.lt_trichotomy k1 k2 with hlt | heq | hgt
  · have := h.mono c1 k1 k2 hlt h2
    omega
  · exact heq
  · have := h.mono c1 k2 k1 hgt h1
    omega

theorem take_min_length (lights : List (Light F V C)) (n : Nat) :
    (lights.take (min lights.length n)).length = min lights.length n := by
  simp

theorem getElem?_take_min {lights : List (Light F V C)} {n i : Nat} {light : Light F V C}
    (hi : i < n) (h : lights[i]? = some light) :
    (lights.take (min lights.length n))[i]? = some light := by
  have hlt : i < lights.length := by
    by_contra hge
    rw [List.getElem?_eq_none (by omega)] at h
    exact Option.noConfusion h
  rw [List.getElem?_take_of_lt (by omega)]
  exact h

theorem getElem?_of_take {lights : List (Light F V C)} {n i : Nat} {light : Light F V C}
    (h : (lights.take n)[i]? = some light) : lights[i]? = some light ∧ i < n := by
  by_cases hi : i < n
  · rw [List.getElem?_take_of_lt hi] at h
    exact ⟨h, hi⟩
  · have hlen : (lights.take n).length ≤ i := by
      rw [List.length_take]; omega
    rw [List.getElem?_eq_none hlen] at h
    exact Option.noConfusion h

/-- C1. For a light list of length N ≤ c_max_forward_lights, setup_lights leaves
exactly N GpuLight records, and record i is the view-space snapshot of input
light i: position is mulp(view, node position), direction is muln(view, node
direction), range, specular, attenuation and spot_attenuation are copied (energy
and spot_cutoff are the linearised colour times energy and the cosine of the
spot angle). -/
theorem setup_lights_snapshot_under_cap (c_max_forward_lights c_max_shadows : Nat)
    (ops : FloatOps F V M C) (b : BlockLight F V C) (render : Render F V M C) (view : M)
    (hN : render.m_shot.m_lights.length ≤ c_max_forward_lights) :
    (setup_lights c_max_forward_lights c_max_shadows ops b render view).m_gpu_lights.length
      = render.m_shot.m_lights.length ∧
    ∀ (i : Nat) (light : Light F V C), render.m_shot.m_lights[i]? = some light →
      (setup_lights c_max_forward_lights c_max_shadows ops b render view).m_gpu_lights[i]?
        = some
          { position := ops.mulp view light.m_node.position
            range := light.m_range
            energy := ops.to_vec3 (ops.scale (ops.to_linear light.m_colour) light.m_energy)
            specular := light.m_specular
            direction := ops.muln view light.m_node.direction
            attenuation := light.m_attenuation
            spot_attenuation := light.m_spot_attenuation
            spot_cutoff := ops.cos (ops.to_radians light.m_spot_angle) } := by
  rw [setup_lights_gpu_lights]
  have hmin : min render.m_shot.m_lights.length c_max_forward_lights
      = render.m_shot.m_lights.length := Nat.min_eq_left hN
  refine ⟨by rw [List.length_map, take_min_length, hmin], ?_⟩
  intro i light hi
  rw [hmin, List.take_length, List.getElem?_map, hi]
  rfl

/-- C2. For a light list of length N > c_max_forward_lights, setup_lights leaves
exactly c_max_forward_lights GpuLight records, and for every i below the cap
record i is the snapshot of input light i: the first lights of the input, in
input order. -/
theorem setup_lights_snapshot_over_cap (c_max_forward_lights c_max_shadows : Nat)
    (ops : FloatOps F V M C) (b : BlockLight F V C) (render : Render F V M C) (view : M)
    (hN : c_max_forward_lights < render.m_shot.m_lights.length) :
    (setup_lights c_max_forward_lights c_max_shadows ops b render view).m_gpu_lights.length
      = c_max_forward_lights ∧
    ∀ (i : Nat) (light : Light F V C), i < c_max_forward_lights →
      render.m_shot.m_lights[i]? = some light →
      (setup_lights c_max_forward_lights c_max_shadows ops b render view).m_gpu_lights[i]?
        = some
          { position := ops.mulp view light.m_node.position
            range := light.m_range
            energy := ops.to_vec3 (ops.scale (ops.to_linear light.m_colour) light.m_energy)
            specular := light.m_specular
            direction := ops.muln view light.m_node.direction
            attenuation := light.m_attenuation
            spot_attenuation := light.m_spot_attenuation
            spot_cutoff := ops.cos (ops.to_radians light.m_spot_angle) } := by
  rw [setup_lights_gpu_lights]
  have hmin : min render.m_shot.m_lights.length c_max_forward_lights
      = c_max_forward_lights := Nat.min_eq_right (Nat.le_of_lt hN)
  refine ⟨by rw [List.length_map, take_min_length, hmin], ?_⟩
  intro i light hic hi
  rw [List.getElem?_map, getElem?_take_min hic hi]
  rfl

/-- C3. For a light list of any length, setup_lights leaves as many
GpuLightShadow records as GpuLight records, and at every index i below that
length both records are built from the same input light i. -/
theorem setup_lights_parallel_arrays (c_max_forward_lights c_max_shadows : Nat)
    (ops : FloatOps F V M C) (b : BlockLight F V C) (render : Render F V M C) (view : M) :
    (setup_lights c_max_forward_lights c_max_shadows ops b render view).m_gpu_shadows.length
      = (setup_lights c_max_forward_lights c_max_shadows ops b render view).m_gpu_lights.length ∧
    ∀ i : Nat,
      i < (setup_lights c_max_forward_lights c_max_shadows ops b render view).m_gpu_lights.length →
      ∃ light : Light F V C, render.m_shot.m_lights[i]? = some light ∧
        (setup_lights c_max_forward_lights c_max_shadows ops b render view).m_gpu_lights[i]?
          = some
            { position := ops.mulp view light.m_node.position
              range := light.m_range
              energy := ops.to_vec3 (ops.scale (ops.to_linear light.m_colour) light.m_energy)
              specular := light.m_specular
              direction := ops.muln view light.m_node.direction
              attenuation := light.m_attenuation
              spot_attenuation := light.m_spot_attenuation
              spot_cutoff := ops.cos (ops.to_radians light.m_spot_angle) } ∧
        (setup_lights c_max_forward_lights c_max_shadows ops b render view).m_gpu_shadows[i]?
          = some
            { matrix := ops.of_size c_max_shadows
              bias := light.m_shadow_bias
              radius := ops.one
              atlas_offset := (ops.zero, ops.zero)
              atlas_scale := (ops.zero, ops.zero) } := by
  rw [setup_lights_gpu_lights, setup_lights_gpu_shadows]
  refine ⟨by rw [List.length_map, List.length_map], ?_⟩
  intro i hi
  rw [List.length_map] at hi
  have hsome : (render.m_shot.m_lights.take
      (min render.m_shot.m_lights.length c_max_forward_lights))[i]?
      = some ((render.m_shot.m_lights.take
          (min render.m_shot.m_lights.length c_max_forward_lights))[i]) :=
    List.getElem?_eq_getElem hi
  refine ⟨_, (getElem?_of_take hsome).1, ?_, ?_⟩
  · rw [List.getElem?_map, hsome]; rfl
  · rw [List.getElem?_map, hsome]; rfl

/-- C4. After setup_lights, for every light type t and every slot k below
light_counts[t], light_indices[k][t] is an index strictly below the length of
the GpuLight sequence and the input light at that index has type t. -/
theorem setup_lights_indices_valid (c_max_forward_lights c_max_shadows : Nat)
    (ops : FloatOps F V M C) (b : BlockLight F V C) (render : Render F V M C) (view : M)
    (t : LightType) (k : Nat)
    (hk : k < (setup_lights c_max_forward_lights c_max_shadows ops b render view).m_zones.m_light_counts
      t.index) :
    (setup_lights c_max_forward_lights c_max_shadows ops b render view).m_zones.m_light_indices
        k t.index
      < (setup_lights c_max_forward_lights c_max_shadows ops b render view).m_gpu_lights.length ∧
    ∃ light : Light F V C,
      render.m_shot.m_lights[(setup_lights c_max_forward_lights c_max_shadows ops b render
        view).m_zones.m_light_indices k t.index]? = some light ∧ light.m_type = t := by
  obtain ⟨light, hl, ht⟩ :=
    (setup_lights_zone c_max_forward_lights c_max_shadows ops b render view).valid t.index k hk
  have h2 := getElem?_of_take hl
  refine ⟨?_, light, h2.1, LightType.index_injective ht⟩
  rw [setup_lights_gpu_lights, List.length_map]
  by_contra hge
  rw [List.getElem?_eq_none (by omega)] at hl
  exact Option.noConfusion hl

/-- C5. After setup_lights, the map from (slot k, type t) with k below
light_counts[t] to light_indices[k][t] is injective: two such pairs holding the
same light index are the same pair. -/
theorem setup_lights_indices_injective (c_max_forward_lights c_max_shadows : Nat)
    (ops : FloatOps F V M C) (b : BlockLight F V C) (render : Render F V M C) (view : M)
    (t1 t2 : LightType) (k1 k2 : Nat)
    (h1 : k1 < (setup_lights c_max_forward_lights c_max_shadows ops b render
      view).m_zones.m_light_counts t1.index)
    (h2 : k2 < (setup_lights c_max_forward_lights c_max_shadows ops b render
      view).m_zones.m_light_counts t2.index)
    (he : (setup_lights c_max_forward_lights c_max_shadows ops b render
        view).m_zones.m_light_indices k1 t1.index
      = (setup_lights c_max_forward_lights c_max_shadows ops b render
        view).m_zones.m_light_indices k2 t2.index) :
    k1 = k2 ∧ t1 = t2 := by
  have h := (setup_lights_zone c_max_forward_lights c_max_shadows ops b render view).inj h1 h2 he
  exact ⟨h.1, LightType.index_injective h.2⟩

/-- C6. After setup_lights on a light list of length N, with any distribution of
light types and any counts held before the call, the four components of
light_counts add up to min(N, c_max_forward_lights). -/
theorem setup_lights_counts_sum (c_max_forward_lights c_max_shadows : Nat)
    (ops : FloatOps F V M C) (b : BlockLight F V C) (render : Render F V M C) (view : M) :
    ∑ c : Fin 4,
        (setup_lights c_max_forward_lights c_max_shadows ops b render view).m_zones.m_light_counts c
      = min render.m_shot.m_lights.length c_max_forward_lights := by
  have h := setup_lights_zone c_max_forward_lights c_max_shadows ops b render view
  simp only [h.counts]
  rw [sum_countP_index, take_min_length]

end Claims

section ClaimsB

variable {F V M C : Type}

/-- The active direct light after `begin_render`: none when the shot has no
Direct light, otherwise the element 0 of the tracked direct lights. -/
theorem begin_render_direct_light (c_max_forward_lights c_max_shadows : Nat)
    (ops : FloatOps F V M C) (b : BlockLight F V C) (render : Render F V M C) :
    (begin_render c_max_forward_lights c_max_shadows ops b render).m_direct_light
      = if (render.m_shot.m_lights.filter
            (fun light => decide (light.m_type = LightType.Direct))).isEmpty then none
        else (render.m_shot.m_lights.filter
            (fun light => decide (light.m_type = LightType.Direct)))[0]? := by
  have h := begin_render_direct_lights c_max_forward_lights c_max_shadows ops b render
  simp only [begin_render, upload_zones, upload_lights] at h ⊢
  simp only [select_direct_light, h]

/-- The flags of `DIRECT_LIGHT` after `options` when no direct light is active. -/
theorem options_no_direct_light (b : BlockLight F V C) (render : Render F V M C)
    (shader_version : ShaderVersion) (h : b.m_direct_light = none) (block : Nat) :
    (options b render shader_version).m_options block ShaderOption.DIRECT_LIGHT
      = shader_version.m_options block ShaderOption.DIRECT_LIGHT := by
  simp only [options, h, Option.isNone_none, Bool.or_false, Bool.not_true]
  simp only [Bool.false_eq_true, if_false]
  split <;> split <;> simp [ShaderVersion.set_option]

/-- C7. After setup_lights, for every light type t, light_counts[t] is the number
of lights of type t among the first min(N, c_max_forward_lights) input lights,
and every surviving light index sits in exactly one slot (k, t) of the table in
use, that is with k below light_counts[t] (the entries beyond the counts are
unused leftovers of earlier frames). In the scenario of 6 lights under the cap, 3 Point, 2 Direct
and 1 Spot in any order, begin_render tracks exactly 2 direct lights,
light_counts has Point = 3 and Spot = 1, and the GpuLight sequence has length 6
with record i the snapshot of light i. -/
theorem setup_lights_counts_per_type (c_max_forward_lights c_max_shadows : Nat)
    (ops : FloatOps F V M C) (b : BlockLight F V C) (render : Render F V M C) (view : M) :
    (∀ t : LightType,
      (setup_lights c_max_forward_lights c_max_shadows ops b render view).m_zones.m_light_counts
          t.index
        = (render.m_shot.m_lights.take
            (min render.m_shot.m_lights.length c_max_forward_lights)).countP
            (fun light => decide (light.m_type = t))) ∧
    (∀ i : Nat, i < min render.m_shot.m_lights.length c_max_forward_lights →
      ∃! p : Nat × LightType,
        p.1 < (setup_lights c_max_forward_lights c_max_shadows ops b render
            view).m_zones.m_light_counts p.2.index ∧
        (setup_lights c_max_forward_lights c_max_shadows ops b render
            view).m_zones.m_light_indices p.1 p.2.index = i) ∧
    (6 ≤ c_max_forward_lights → render.m_shot.m_lights.length = 6 →
      render.m_shot.m_lights.countP (fun light => decide (light.m_type = LightType.Point)) = 3 →
      render.m_shot.m_lights.countP (fun light => decide (light.m_type = LightType.Direct)) = 2 →
      render.m_shot.m_lights.countP (fun light => decide (light.m_type = LightType.Spot)) = 1 →
      (begin_render c_max_forward_lights c_max_shadows ops b render).m_direct_lights.length = 2 ∧
      (begin_render c_max_forward_lights c_max_shadows ops b render).m_zones.m_light_counts
        LightType.Point.index = 3 ∧
      (begin_render c_max_forward_lights c_max_shadows ops b render).m_zones.m_light_counts
        LightType.Spot.index = 1 ∧
      (begin_render c_max_forward_lights c_max_shadows ops b render).m_gpu_lights.length = 6 ∧
      ∀ (i : Nat) (light : Light F V C), render.m_shot.m_lights[i]? = some light →
        (begin_render c_max_forward_lights c_max_shadows ops b render).m_gpu_lights[i]?
          = some
            { position := ops.mulp render.m_camera.m_transform light.m_node.position
              range := light.m_range
              energy := ops.to_vec3 (ops.scale (ops.to_linear light.m_colour) light.m_energy)
              specular := light.m_specular
              direction := ops.muln render.m_camera.m_transform light.m_node.direction
              attenuation := light.m_attenuation
              spot_attenuation := light.m_spot_attenuation
              spot_cutoff := ops.cos (ops.to_radians light.m_spot_angle) }) := by
  have hcount : ∀ (b0 : BlockLight F V C) (view0 : M) (t : LightType),
      (setup_lights c_max_forward_lights c_max_shadows ops b0 render view0).m_zones.m_light_counts
          t.index
        = (render.m_shot.m_lights.take
            (min render.m_shot.m_lights.length c_max_forward_lights)).countP
            (fun light => decide (light.m_type = t)) := by
    intro b0 view0 t
    rw [(setup_lights_zone c_max_forward_lights c_max_shadows ops b0 render view0).counts]
    simp only [LightType.index_eq_iff]
  refine ⟨hcount b view, ?_, ?_⟩
  · intro i hi
    have h := setup_lights_zone c_max_forward_lights c_max_shadows ops b render view
    have hlt : i < (render.m_shot.m_lights.take
        (min render.m_shot.m_lights.length c_max_forward_lights)).length := by
      rw [take_min_length]; exact hi
    obtain ⟨k, hk, hki⟩ := h.cover i _ (List.getElem?_eq_getElem hlt)
    refine ⟨(k, _), ⟨hk, hki⟩, ?_⟩
    rintro ⟨k2, t2⟩ ⟨hk2, hki2⟩
    have hinj := h.inj hk2 hk (hki2.trans hki.symm)
    rw [Prod.mk.injEq]
    exact ⟨hinj.1, LightType.index_injective hinj.2⟩
  · intro hcap hlen hp hd hs
    have hmin : min render.m_shot.m_lights.length c_max_forward_lights
        = render.m_shot.m_lights.length := Nat.min_eq_left (by omega)
    have hsetup := begin_render_setup c_max_forward_lights c_max_shadows ops b render
    simp only at hsetup
    have hcounts := hcount (begin_render_classify b render) render.m_camera.m_transform
    rw [hmin, List.take_length] at hcounts
    refine ⟨?_, ?_, ?_, ?_, ?_⟩
    · rw [begin_render_direct_lights, ← List.countP_eq_length_filter, hd]
    · rw [hsetup.2.2.1, hcounts, hp]
    · rw [hsetup.2.2.1, hcounts, hs]
    · rw [hsetup.1, setup_lights_gpu_lights, List.length_map, take_min_length, hmin, hlen]
    · intro i light hi
      rw [hsetup.1, setup_lights_gpu_lights, hmin, List.take_length, List.getElem?_map, hi]
      rfl

/-- C8. For a shot with zero lights, begin_render leaves the GpuLight and
GpuLightShadow sequences empty and the active direct light null, and a
following options call leaves the DIRECT_LIGHT flag of every block as it was;
both operations are total, there is no error path. -/
theorem begin_render_no_lights (c_max_forward_lights c_max_shadows : Nat)
    (ops : FloatOps F V M C) (b : BlockLight F V C) (render : Render F V M C)
    (shader_version : ShaderVersion) (h : render.m_shot.m_lights = []) :
    (begin_render c_max_forward_lights c_max_shadows ops b render).m_gpu_lights = [] ∧
    (begin_render c_max_forward_lights c_max_shadows ops b render).m_gpu_shadows = [] ∧
    (begin_render c_max_forward_lights c_max_shadows ops b render).m_direct_light = none ∧
    ∀ block : Nat,
      (options (begin_render c_max_forward_lights c_max_shadows ops b render) render
          shader_version).m_options block ShaderOption.DIRECT_LIGHT
        = shader_version.m_options block ShaderOption.DIRECT_LIGHT := by
  have hsetup := begin_render_setup c_max_forward_lights c_max_shadows ops b render
  simp only at hsetup
  have hnone : (begin_render c_max_forward_lights c_max_shadows ops b render).m_direct_light
      = none := by
    rw [begin_render_direct_light, h]
    rfl
  refine ⟨?_, ?_, hnone, ?_⟩
  · rw [hsetup.1, setup_lights_gpu_lights, h, List.take_nil, List.map_nil]
  · rw [hsetup.2.1, setup_lights_gpu_shadows, h, List.take_nil, List.map_nil]
  · intro block
    exact options_no_direct_light _ render shader_version hnone block

/-- C9. Idempotence of setup_lights on its outputs: a second call with the same
light list and view matrix leaves GpuLight and GpuLightShadow sequences equal to
those after the first call, and the two sequences are the same from any two
block states. -/
theorem setup_lights_idempotent (c_max_forward_lights c_max_shadows : Nat)
    (ops : FloatOps F V M C) (b : BlockLight F V C) (render : Render F V M C) (view : M) :
    (setup_lights c_max_forward_lights c_max_shadows ops
        (setup_lights c_max_forward_lights c_max_shadows ops b render view) render
        view).m_gpu_lights
      = (setup_lights c_max_forward_lights c_max_shadows ops b render view).m_gpu_lights ∧
    (setup_lights c_max_forward_lights c_max_shadows ops
        (setup_lights c_max_forward_lights c_max_shadows ops b render view) render
        view).m_gpu_shadows
      = (setup_lights c_max_forward_lights c_max_shadows ops b render view).m_gpu_shadows ∧
    ∀ b0 : BlockLight F V C,
      (setup_lights c_max_forward_lights c_max_shadows ops b0 render view).m_gpu_lights
        = (setup_lights c_max_forward_lights c_max_shadows ops b render view).m_gpu_lights ∧
      (setup_lights c_max_forward_lights c_max_shadows ops b0 render view).m_gpu_shadows
        = (setup_lights c_max_forward_lights c_max_shadows ops b render view).m_gpu_shadows := by
  refine ⟨?_, ?_, fun b0 => ⟨?_, ?_⟩⟩
  · rw [setup_lights_gpu_lights, setup_lights_gpu_lights]
  · rw [setup_lights_gpu_shadows, setup_lights_gpu_shadows]
  · rw [setup_lights_gpu_lights, setup_lights_gpu_lights]
  · rw [setup_lights_gpu_shadows, setup_lights_gpu_shadows]

/-- C10. After begin_render, whatever the block tracked before, the tracked
direct-light sequence is the subsequence of the lights of the shot whose type is
Direct, in shot order, and no light of another type is in it. -/
theorem begin_render_tracks_direct (c_max_forward_lights c_max_shadows : Nat)
    (ops : FloatOps F V M C) (b : BlockLight F V C) (render : Render F V M C) :
    (begin_render c_max_forward_lights c_max_shadows ops b render).m_direct_lights
      = render.m_shot.m_lights.filter (fun light => decide (light.m_type = LightType.Direct)) ∧
    (begin_render c_max_forward_lights c_max_shadows ops b render).m_direct_lights.Sublist
      render.m_shot.m_lights ∧
    ∀ light : Light F V C, light.m_type ≠ LightType.Direct →
      light ∉ (begin_render c_max_forward_lights c_max_shadows ops b render).m_direct_lights := by
  rw [begin_render_direct_lights]
  refine ⟨rfl, List.filter_sublist _, ?_⟩
  intro light hne hmem
  rw [List.mem_filter] at hmem
  exact hne (of_decide_eq_true hmem.2)

end ClaimsB

/-! ## Active direct light and shader options -/

section ClaimsC

variable {F V M C : Type}

/-- Element 0 of the filtered list, or none when it is empty, is the first
element that satisfies the predicate. -/
theorem filter_first_eq_find? {α : Type} (p : α → Bool) (l : List α) :
    (if (l.filter p).isEmpty then none else (l.filter p)[0]?) = l.find? p := by
  induction l with
  | nil => rfl
  | cons x xs ih =>
    by_cases hx : p x = true
    · simp [List.filter_cons, List.find?_cons, hx]
    · have hx2 : p x = false := by simpa using hx
      simpa [List.filter_cons, List.find?_cons, hx2] using ih

/-- The active direct light after `begin_render` is the first Direct light of the
shot. -/
theorem begin_render_direct_light_find (c_max_forward_lights c_max_shadows : Nat)
    (ops : FloatOps F V M C) (b : BlockLight F V C) (render : Render F V M C) :
    (begin_render c_max_forward_lights c_max_shadows ops b render).m_direct_light
      = render.m_shot.m_lights.find? (fun light => decide (light.m_type = LightType.Direct)) := by
  rw [begin_render_direct_light, filter_first_eq_find?]

/-- The flags after `set_option(block, option, true)`. -/
theorem set_option_flags (shader_version : ShaderVersion) (blk : Nat) (opt : ShaderOption)
    (block : Nat) (o : ShaderOption) :
    (shader_version.set_option blk opt true).m_options block o
      = (shader_version.m_options block o || decide (block = blk ∧ o = opt)) := by
  simp only [ShaderVersion.set_option]
  by_cases h : block = blk ∧ o = opt
  · simp [h]
  · simp [h]

/-- The flags after a guarded `set_option(block, option, true)`. -/
theorem ite_set_option_flags (c : Bool) (shader_version : ShaderVersion) (blk : Nat)
    (opt : ShaderOption) (block : Nat) (o : ShaderOption) :
    (if c = true then shader_version.set_option blk opt true
      else shader_version).m_options block o
      = (shader_version.m_options block o || (decide (block = blk ∧ o = opt) && c)) := by
  cases c <;> simp [set_option_flags]

/-- Every flag of the shader version after `options`. -/
theorem options_flags (b : BlockLight F V C) (render : Render F V M C)
    (shader_version : ShaderVersion) (block : Nat) (o : ShaderOption) :
    (options b render shader_version).m_options block o
      = (shader_version.m_options block o
          || (decide (block = 0 ∧ o = ShaderOption.CLUSTERED) && render.m_camera.m_clustered)
          || (decide (block = b.m_index ∧ o = ShaderOption.FOG) &&
              (match render.m_env with
               | some env => env.m_fog.m_enabled
               | none => false))
          || (decide (block = b.m_index ∧ o = ShaderOption.DIRECT_LIGHT) &&
              b.m_direct_light.isSome)) := by
  simp only [options, ite_set_option_flags]
  cases b.m_direct_light <;> rfl

end ClaimsC

section ClaimsD

variable {F V M C : Type}

/-- C11. In the default configuration, after begin_render the active direct light
is the first Direct light of the shot in shot order when the shot has one, and
null when it has none; the block holds a single active light however many direct
lights the shot has. -/
theorem begin_render_active_direct_light (c_max_forward_lights c_max_shadows : Nat)
    (ops : FloatOps F V M C) (b : BlockLight F V C) (render : Render F V M C) :
    (∀ (pre post : List (Light F V C)) (light : Light F V C),
      render.m_shot.m_lights = pre ++ light :: post →
      (∀ other ∈ pre, other.m_type ≠ LightType.Direct) →
      light.m_type = LightType.Direct →
      (begin_render c_max_forward_lights c_max_shadows ops b render).m_direct_light
        = some light) ∧
    ((∀ other ∈ render.m_shot.m_lights, other.m_type ≠ LightType.Direct) →
      (begin_render c_max_forward_lights c_max_shadows ops b render).m_direct_light = none) ∧
    ((∃ other ∈ render.m_shot.m_lights, other.m_type = LightType.Direct) →
      ∃! light : Light F V C,
        (begin_render c_max_forward_lights c_max_shadows ops b render).m_direct_light
          = some light) := by
  rw [begin_render_direct_light_find]
  refine ⟨?_, ?_, ?_⟩
  · intro pre post light hl hpre hd
    rw [hl, List.find?_append]
    have hnone : pre.find? (fun light => decide (light.m_type = LightType.Direct)) = none := by
      rw [List.find?_eq_none]
      intro x hx
      simpa using hpre x hx
    rw [hnone, List.find?_cons]
    simp [hd]
  · intro hall
    rw [List.find?_eq_none]
    intro x hx
    simpa using hall x hx
  · rintro ⟨other, hmem, hd⟩
    cases hf : render.m_shot.m_lights.find?
        (fun light => decide (light.m_type = LightType.Direct)) with
    | none =>
      rw [List.find?_eq_none] at hf
      have := hf other hmem
      simp [hd] at this
    | some light =>
      exact ⟨light, rfl, fun y hy => (Option.some.inj hy).symm⟩

/-- C12. After options, the DIRECT_LIGHT flag of a block is its flag before the
call, or-ed for the block of index m_index with "the active direct light is
non-null": starting from a cleared flag, options sets DIRECT_LIGHT of the block
if and only if the active direct light is non-null. -/
theorem options_direct_light_iff (b : BlockLight F V C) (render : Render F V M C)
    (shader_version : ShaderVersion) :
    (∀ block : Nat,
      (options b render shader_version).m_options block ShaderOption.DIRECT_LIGHT
        = (shader_version.m_options block ShaderOption.DIRECT_LIGHT
            || (decide (block = b.m_index) && b.m_direct_light.isSome))) ∧
    (shader_version.m_options b.m_index ShaderOption.DIRECT_LIGHT = false →
      ((options b render shader_version).m_options b.m_index ShaderOption.DIRECT_LIGHT = true
        ↔ b.m_direct_light ≠ none)) := by
  have h : ∀ block : Nat,
      (options b render shader_version).m_options block ShaderOption.DIRECT_LIGHT
        = (shader_version.m_options block ShaderOption.DIRECT_LIGHT
            || (decide (block = b.m_index) && b.m_direct_light.isSome)) := by
    intro block
    rw [options_flags]
    simp
  refine ⟨h, ?_⟩
  intro hclear
  rw [h, hclear]
  cases b.m_direct_light <;> simp

/-- C13. After options, the FOG flag of a block is its flag before the call, or-ed
for the block of index m_index with "the render has an environment whose fog is
enabled": starting from a cleared flag, options sets FOG of the block if and
only if there is an environment with fog enabled; with a null environment no FOG
flag changes. -/
theorem options_fog_iff (b : BlockLight F V C) (render : Render F V M C)
    (shader_version : ShaderVersion) :
    (∀ block : Nat,
      (options b render shader_version).m_options block ShaderOption.FOG
        = (shader_version.m_options block ShaderOption.FOG
            || (decide (block = b.m_index) &&
                (match render.m_env with
                 | some env => env.m_fog.m_enabled
                 | none => false)))) ∧
    (shader_version.m_options b.m_index ShaderOption.FOG = false →
      ((options b render shader_version).m_options b.m_index ShaderOption.FOG = true
        ↔ ∃ env : Environment, render.m_env = some env ∧ env.m_fog.m_enabled = true)) ∧
    (render.m_env = none → ∀ block : Nat,
      (options b render shader_version).m_options block ShaderOption.FOG
        = shader_version.m_options block ShaderOption.FOG) := by
  have h : ∀ block : Nat,
      (options b render shader_version).m_options block ShaderOption.FOG
        = (shader_version.m_options block ShaderOption.FOG
            || (decide (block = b.m_index) &&
                (match render.m_env with
                 | some env => env.m_fog.m_enabled
                 | none => false))) := by
    intro block
    rw [options_flags]
    simp
  refine ⟨h, ?_, ?_⟩
  · intro hclear
    rw [h, hclear]
    cases render.m_env <;> simp
  · intro hnone block
    rw [h, hnone]
    simp

/-- C14. After options, the CLUSTERED flag of a block is its flag before the call,
or-ed for block 0 with the clustered flag of the camera: starting from a cleared
flag, options sets CLUSTERED if and only if the camera is clustered. Every flag
that was set before the call is still set after it. -/
theorem options_clustered_monotone (b : BlockLight F V C) (render : Render F V M C)
    (shader_version : ShaderVersion) :
    (∀ block : Nat,
      (options b render shader_version).m_options block ShaderOption.CLUSTERED
        = (shader_version.m_options block ShaderOption.CLUSTERED
            || (decide (block = 0) && render.m_camera.m_clustered))) ∧
    (shader_version.m_options 0 ShaderOption.CLUSTERED = false →
      ((options b render shader_version).m_options 0 ShaderOption.CLUSTERED = true
        ↔ render.m_camera.m_clustered = true)) ∧
    (∀ (block : Nat) (o : ShaderOption), shader_version.m_options block o = true →
      (options b render shader_version).m_options block o = true) := by
  have h : ∀ block : Nat,
      (options b render shader_version).m_options block ShaderOption.CLUSTERED
        = (shader_version.m_options block ShaderOption.CLUSTERED
            || (decide (block = 0) && render.m_camera.m_clustered)) := by
    intro block
    rw [options_flags]
    simp
  refine ⟨h, ?_, ?_⟩
  · intro hclear
    rw [h, hclear]
    simp
  · intro block o hset
    rw [options_flags, hset]
    simp

end ClaimsD

/-! ## Initialisation, truncation, passes and the renderer table -/

section ClaimsE

variable {F V M C : Type}

/-- Clamping the count of a span to the cap keeps the first `cap` elements. -/
theorem take_min_eq_take {α : Type} (l : List α) (cap : Nat) :
    l.take (min l.length cap) = l.take cap := by
  by_cases h : l.length ≤ cap
  · rw [Nat.min_eq_left h, List.take_length, List.take_of_length_le h]
  · rw [Nat.min_eq_right (by omega)]

/-- The clamped count is the number of elements kept. -/
theorem min_length_eq_length_take {α : Type} (l : List α) (cap : Nat) :
    min l.length cap = (l.take cap).length := by
  rw [List.length_take, Nat.min_comm]

/-- Two renders whose light lists have the same first `cap` elements give the same
block after `setup_lights`. -/
theorem setup_lights_congr (c_max_forward_lights c_max_shadows : Nat)
    (ops : FloatOps F V M C) (b : BlockLight F V C) (render1 render2 : Render F V M C)
    (view : M)
    (h : render1.m_shot.m_lights.take c_max_forward_lights
      = render2.m_shot.m_lights.take c_max_forward_lights) :
    setup_lights c_max_forward_lights c_max_shadows ops b render1 view
      = setup_lights c_max_forward_lights c_max_shadows ops b render2 view := by
  have e : min render1.m_shot.m_lights.length c_max_forward_lights
      = min render2.m_shot.m_lights.length c_max_forward_lights := by
    rw [min_length_eq_length_take, min_length_eq_length_take, h]
  simp only [setup_lights]
  rw [take_min_eq_take, take_min_eq_take, h, e]

/-- Counterexample for C15: with the three flags off, submit calls upload on
GpuState<Zone>, which init_block does not initialise; with the three flags on,
begin_render packs GpuState<GpuLight>, which init_block does not initialise. -/
theorem init_block_misses_used_singletons :
    GpuCall.upload GpuStateKind.Zone
        ∈ (submit flagsOff staleBlock (sampleRender scenarioLights)).2 ∧
    GpuCall.init GpuStateKind.Zone ∉ init_block flagsOff ∧
    GpuCall.pack GpuStateKind.GpuLight ∈ begin_render_calls flagsOn ∧
    GpuCall.init GpuStateKind.GpuLight ∉ init_block flagsOn := by
  decide

/-- C15, amended. For every setting of the flags, init_block initialises
GpuState<Radiance> and GpuState<Fog> exactly when ZONES_BUFFER is off,
GpuState<GpuLight> exactly when LIGHTS_BUFFER is off, GpuState<ZoneLights>
exactly when ZONES_LIGHTS_BUFFER is off, and never GpuState<Zone>. Every
singleton other than GpuState<Zone> on which submit calls upload has been
initialised by init_block; the per-element submit calls neither pack nor upload;
the singletons packed in begin_render are not initialised by init_block. -/
theorem init_block_covers_uploads (flags : BufferFlags) (b : BlockLight F V C)
    (render : Render F V M C) (kind : GpuStateKind) :
    (GpuCall.init kind ∈ init_block flags ↔
      (kind = GpuStateKind.Radiance ∧ flags.ZONES_BUFFER = false) ∨
      (kind = GpuStateKind.Fog ∧ flags.ZONES_BUFFER = false) ∨
      (kind = GpuStateKind.GpuLight ∧ flags.LIGHTS_BUFFER = false) ∨
      (kind = GpuStateKind.ZoneLights ∧ flags.ZONES_LIGHTS_BUFFER = false)) ∧
    (GpuCall.upload kind ∈ (submit flags b render).2 → kind ≠ GpuStateKind.Zone →
      GpuCall.init kind ∈ init_block flags) ∧
    (GpuCall.upload kind ∉ (submit_element flags b render).2 ∧
      GpuCall.pack kind ∉ (submit_element flags b render).2 ∧
      GpuCall.pack kind ∉ (submit flags b render).2 ∧
      GpuCall.upload kind ∉ begin_render_calls flags) ∧
    (GpuCall.pack kind ∈ begin_render_calls flags → GpuCall.init kind ∉ init_block flags) := by
  obtain ⟨zb, lb, zlb⟩ := flags
  cases hc : render.m_camera.m_clustered <;> cases zb <;> cases lb <;> cases zlb <;>
    cases kind <;>
    simp [init_block, submit, submit_element, begin_render_calls, upload_lights_calls,
      upload_zones_calls, commit_zones, commit_lights, hc]

/-- C16. Lights beyond the cap are invisible to binning: from the same prior
state and view matrix, two light lists with the same first c_max_forward_lights
elements give the same GpuLight sequence, GpuLightShadow sequence, light_counts,
light_indices and light_count (of the block and of the zone). -/
theorem setup_lights_ignores_excess (c_max_forward_lights c_max_shadows : Nat)
    (ops : FloatOps F V M C) (b : BlockLight F V C) (render1 render2 : Render F V M C)
    (view : M)
    (h : render1.m_shot.m_lights.take c_max_forward_lights
      = render2.m_shot.m_lights.take c_max_forward_lights) :
    (setup_lights c_max_forward_lights c_max_shadows ops b render1 view).m_gpu_lights
      = (setup_lights c_max_forward_lights c_max_shadows ops b render2 view).m_gpu_lights ∧
    (setup_lights c_max_forward_lights c_max_shadows ops b render1 view).m_gpu_shadows
      = (setup_lights c_max_forward_lights c_max_shadows ops b render2 view).m_gpu_shadows ∧
    (setup_lights c_max_forward_lights c_max_shadows ops b render1 view).m_zones.m_light_counts
      = (setup_lights c_max_forward_lights c_max_shadows ops b render2
          view).m_zones.m_light_counts ∧
    (setup_lights c_max_forward_lights c_max_shadows ops b render1 view).m_zones.m_light_indices
      = (setup_lights c_max_forward_lights c_max_shadows ops b render2
          view).m_zones.m_light_indices ∧
    (setup_lights c_max_forward_lights c_max_shadows ops b render1 view).m_zones.m_light_count
      = (setup_lights c_max_forward_lights c_max_shadows ops b render2
          view).m_zones.m_light_count ∧
    (setup_lights c_max_forward_lights c_max_shadows ops b render1 view).m_light_count
      = (setup_lights c_max_forward_lights c_max_shadows ops b render2 view).m_light_count := by
  rw [setup_lights_congr c_max_forward_lights c_max_shadows ops b render1 render2 view h]
  exact ⟨rfl, rfl, rfl, rfl, rfl, rfl⟩

/-- C17. The snapshot is frame-immutable once built: begin_pass, options and both
submit overloads leave the block as it is, and so does any sequence of these
callbacks; in particular the GpuLight and GpuLightShadow sequences, the zone
record, light_count, the direct-light sequence and the active direct light are
unchanged. -/
theorem pass_callbacks_keep_snapshot (flags : BufferFlags) (b : BlockLight F V C)
    (render : Render F V M C) (calls : List PassCall) :
    begin_pass b render = b ∧
    (submit flags b render).1 = b ∧
    (submit_element flags b render).1 = b ∧
    (∀ call : PassCall, run_pass_call flags render b call = b) ∧
    run_pass_calls flags render b calls = b ∧
    (run_pass_calls flags render b calls).m_gpu_lights = b.m_gpu_lights ∧
    (run_pass_calls flags render b calls).m_gpu_shadows = b.m_gpu_shadows ∧
    (run_pass_calls flags render b calls).m_zones = b.m_zones ∧
    (run_pass_calls flags render b calls).m_light_count = b.m_light_count ∧
    (run_pass_calls flags render b calls).m_direct_lights = b.m_direct_lights ∧
    (run_pass_calls flags render b calls).m_direct_light = b.m_direct_light := by
  have hsubmit : ∀ b0 : BlockLight F V C, (submit flags b0 render).1 = b0 := by
    intro b0
    simp only [submit, gpu_light_upload]
    split <;> rfl
  have hcall : ∀ (b0 : BlockLight F V C) (call : PassCall),
      run_pass_call flags render b0 call = b0 := by
    intro b0 call
    cases call with
    | begin_pass => rfl
    | options sv => rfl
    | submit => exact hsubmit b0
    | submit_element => rfl
  have hrun : run_pass_calls flags render b calls = b := by
    unfold run_pass_calls
    induction calls with
    | nil => rfl
    | cons call rest ih => rw [List.foldl_cons, hcall]; exact ih
  refine ⟨rfl, hsubmit b, rfl, hcall b, hrun, ?_, ?_, ?_, ?_, ?_, ?_⟩ <;> rw [hrun]

/-- C18. setup_lights is a total function without error path or validation: for
every light list it returns, the GpuLight sequence has min(N, cap) records, and
for every surviving index i the range, specular, attenuation and
spot_attenuation of GpuLight[i] are the fields of input light i, whatever their
value. -/
theorem setup_lights_passes_fields_through (c_max_forward_lights c_max_shadows : Nat)
    (ops : FloatOps F V M C) (b : BlockLight F V C) (render : Render F V M C) (view : M) :
    (setup_lights c_max_forward_lights c_max_shadows ops b render view).m_gpu_lights.length
      = min render.m_shot.m_lights.length c_max_forward_lights ∧
    ∀ i : Nat, i < min render.m_shot.m_lights.length c_max_forward_lights →
      ∃ (light : Light F V C) (gpu : GpuLight F V),
        render.m_shot.m_lights[i]? = some light ∧
        (setup_lights c_max_forward_lights c_max_shadows ops b render view).m_gpu_lights[i]?
          = some gpu ∧
        gpu.range = light.m_range ∧ gpu.specular = light.m_specular ∧
        gpu.attenuation = light.m_attenuation ∧
        gpu.spot_attenuation = light.m_spot_attenuation := by
  rw [setup_lights_gpu_lights]
  refine ⟨by rw [List.length_map, take_min_length], ?_⟩
  intro i hi
  have hlt : i < (render.m_shot.m_lights.take
      (min render.m_shot.m_lights.length c_max_forward_lights)).length := by
    rw [take_min_length]; exact hi
  have hsome := List.getElem?_eq_getElem hlt
  rw [List.getElem?_map, hsome]
  exact ⟨_, _, (getElem?_of_take hsome).1, rfl, rfl, rfl, rfl, rfl⟩

/-- C19. The renderer table is a map from shading mode to render function: after
set_renderer(s, f), renderer(s) returns f and the entry of every other shading
mode is unchanged; after init_pipeline, whatever the pipeline declaration and
the blocks did, renderer(Shading::Solid) is render_solid and
renderer(Shading::Clear) is render_clear. -/
theorem renderer_table (gfx : GfxSystem) (shading : Shading) (f : RenderFunc)
    (deferred : Bool) (block_init : Nat → GfxSystem → GfxSystem)
    (decl : GfxSystem → Bool → GfxSystem) :
    (gfx.set_renderer shading f).renderer shading = some f ∧
    (∀ other : Shading, other ≠ shading →
      (gfx.set_renderer shading f).renderer other = gfx.renderer other) ∧
    (GfxSystem.init_pipeline deferred block_init gfx decl).renderer Shading.Solid
      = some RenderFunc.render_solid ∧
    (GfxSystem.init_pipeline deferred block_init gfx decl).renderer Shading.Clear
      = some RenderFunc.render_clear := by
  refine ⟨?_, ?_, ?_, ?_⟩
  · simp [GfxSystem.set_renderer, GfxSystem.renderer]
  · intro other hne
    simp [GfxSystem.set_renderer, GfxSystem.renderer, Function.update_noteq hne]
  · simp [GfxSystem.init_pipeline, GfxSystem.create_debug_materials, GfxSystem.fetch_material,
      GfxSystem.set_renderer, GfxSystem.renderer, Function.update_apply]
  · simp [GfxSystem.init_pipeline, GfxSystem.create_debug_materials, GfxSystem.fetch_material,
      GfxSystem.set_renderer, GfxSystem.renderer]

end ClaimsE

/-! ## Counts, shadow placeholders and writes of the binning loop -/

section ClaimsF

variable {F V M C : Type}

/-- The light count recorded by `setup_lights` on the block and on the zone. -/
theorem setup_lights_light_count_eq (c_max_forward_lights c_max_shadows : Nat)
    (ops : FloatOps F V M C) (b : BlockLight F V C) (render : Render F V M C) (view : M) :
    (setup_lights c_max_forward_lights c_max_shadows ops b render view).m_light_count
      = min render.m_shot.m_lights.length c_max_forward_lights % 2 ^ 16 ∧
    (setup_lights c_max_forward_lights c_max_shadows ops b render view).m_zones.m_light_count
      = min render.m_shot.m_lights.length c_max_forward_lights % 2 ^ 16 :=
  ⟨rfl, rfl⟩

/-- The first loop only raises counts, and an entry of the table at or beyond the
final count of its column keeps its value. -/
theorem bin_loop_indices_beyond (ops : FloatOps F V M C) (view : M)
    (lights : List (Light F V C)) (index : Nat) (b : BlockLight F V C) :
    (∀ c : Fin 4, b.m_zones.m_light_counts c
      ≤ (span_loop (setup_lights_bin ops view) lights index b).m_zones.m_light_counts c) ∧
    ∀ (k : Nat) (c : Fin 4),
      (span_loop (setup_lights_bin ops view) lights index b).m_zones.m_light_counts c ≤ k →
      (span_loop (setup_lights_bin ops view) lights index b).m_zones.m_light_indices k c
        = b.m_zones.m_light_indices k c := by
  induction lights generalizing index b with
  | nil => exact ⟨fun _ => Nat.le_refl _, fun _ _ _ => rfl⟩
  | cons x xs ih =>
    obtain ⟨hmono, hkeep⟩ := ih (index + 1) (setup_lights_bin ops view b index x)
    have hstep : ∀ c : Fin 4, b.m_zones.m_light_counts c
        ≤ (setup_lights_bin ops view b index x).m_zones.m_light_counts c := by
      intro c
      rw [bin_step_counts]
      split
      · rename_i hc; rw [hc]; omega
      · exact Nat.le_refl _
    refine ⟨fun c => Nat.le_trans (hstep c) (hmono c), ?_⟩
    intro k c hk
    simp only [span_loop] at hk ⊢
    rw [hkeep k c hk, bin_step_indices]
    have h1 := hmono c
    rw [bin_step_counts] at h1
    have hne : ¬ (k = b.m_zones.m_light_counts x.m_type.index ∧ c = x.m_type.index) := by
      rintro ⟨hk1, hc1⟩
      subst hc1
      rw [if_pos rfl] at h1
      omega
    rw [if_neg hne]

/-- Every entry written by the first loop lies in the column of one of the lights,
at a row between the count before the loop and the count after it. -/
theorem bin_writes_range (ops : FloatOps F V M C) (view : M)
    (lights : List (Light F V C)) (index : Nat) (b : BlockLight F V C)
    (p : Nat × Fin 4) (hp : p ∈ setup_lights_bin_writes ops view lights index b) :
    b.m_zones.m_light_counts p.2 ≤ p.1 ∧
    p.1 < (span_loop (setup_lights_bin ops view) lights index b).m_zones.m_light_counts p.2 ∧
    ∃ light ∈ lights, p.2 = light.m_type.index := by
  induction lights generalizing index b with
  | nil => simp [setup_lights_bin_writes] at hp
  | cons x xs ih =>
    simp only [setup_lights_bin_writes, List.mem_cons] at hp
    have hmono := (bin_loop_indices_beyond ops view xs (index + 1)
      (setup_lights_bin ops view b index x)).1
    rcases hp with hp | hp
    · subst hp
      have h1 := hmono x.m_type.index
      rw [bin_step_counts, if_pos rfl] at h1
      refine ⟨Nat.le_refl _, ?_, x, List.mem_cons_self _ _, rfl⟩
      simp only [span_loop]
      omega
    · obtain ⟨hlo, hhi, light, hmem, hl⟩ := ih (index + 1) _ hp
      refine ⟨?_, by simpa [span_loop] using hhi, light, List.mem_cons_of_mem _ hmem, hl⟩
      have hstep : b.m_zones.m_light_counts p.2
          ≤ (setup_lights_bin ops view b index x).m_zones.m_light_counts p.2 := by
        rw [bin_step_counts]
        split
        · rename_i hc; rw [hc]; omega
        · exact Nat.le_refl _
      omega

/-- The zone record left by `setup_lights` is the one left by its first loop, but
for the light count. -/
theorem setup_lights_zone_eq (c_max_forward_lights c_max_shadows : Nat)
    (ops : FloatOps F V M C) (b : BlockLight F V C) (render : Render F V M C) (view : M) :
    (setup_lights c_max_forward_lights c_max_shadows ops b render view).m_zones.m_light_counts
      = (span_loop (setup_lights_bin ops view)
          (render.m_shot.m_lights.take (min render.m_shot.m_lights.length c_max_forward_lights))
          0
          { b with
            m_zones := { b.m_zones with m_light_counts := fun _ => 0 }
            m_gpu_lights := []
            m_gpu_shadows := [] }).m_zones.m_light_counts ∧
    (setup_lights c_max_forward_lights c_max_shadows ops b render view).m_zones.m_light_indices
      = (span_loop (setup_lights_bin ops view)
          (render.m_shot.m_lights.take (min render.m_shot.m_lights.length c_max_forward_lights))
          0
          { b with
            m_zones := { b.m_zones with m_light_counts := fun _ => 0 }
            m_gpu_lights := []
            m_gpu_shadows := [] }).m_zones.m_light_indices := by
  constructor
  · simp only [setup_lights]
    rw [(shadow_loop_frame c_max_shadows ops _ 0 _).2.1]
  · simp only [setup_lights]
    rw [(shadow_loop_frame c_max_shadows ops _ 0 _).2.1]

/-- A count of the zone record is at most the number of lights processed. -/
theorem setup_lights_count_le (c_max_forward_lights c_max_shadows : Nat)
    (ops : FloatOps F V M C) (b : BlockLight F V C) (render : Render F V M C) (view : M)
    (c : Fin 4) :
    (setup_lights c_max_forward_lights c_max_shadows ops b render view).m_zones.m_light_counts c
      ≤ min render.m_shot.m_lights.length c_max_forward_lights := by
  rw [(setup_lights_zone c_max_forward_lights c_max_shadows ops b render view).counts c]
  exact Nat.le_trans (List.countP_le_length _) (le_of_eq (take_min_length _ _))

/-- C21. After setup_lights on a list of length N, the light_count of the block
and the light_count of the zone are equal, both min(N, c_max_forward_lights)
modulo 2^16; when c_max_forward_lights is below 2^16 they are
min(N, c_max_forward_lights) itself, the length of the GpuLight sequence. -/
theorem setup_lights_light_count (c_max_forward_lights c_max_shadows : Nat)
    (ops : FloatOps F V M C) (b : BlockLight F V C) (render : Render F V M C) (view : M) :
    (setup_lights c_max_forward_lights c_max_shadows ops b render view).m_light_count
      = (setup_lights c_max_forward_lights c_max_shadows ops b render
          view).m_zones.m_light_count ∧
    (setup_lights c_max_forward_lights c_max_shadows ops b render view).m_light_count
      = min render.m_shot.m_lights.length c_max_forward_lights % 2 ^ 16 ∧
    (c_max_forward_lights < 2 ^ 16 →
      (setup_lights c_max_forward_lights c_max_shadows ops b render view).m_light_count
        = min render.m_shot.m_lights.length c_max_forward_lights ∧
      (setup_lights c_max_forward_lights c_max_shadows ops b render view).m_zones.m_light_count
        = min render.m_shot.m_lights.length c_max_forward_lights ∧
      (setup_lights c_max_forward_lights c_max_shadows ops b render view).m_light_count
        = (setup_lights c_max_forward_lights c_max_shadows ops b render
            view).m_gpu_lights.length) := by
  obtain ⟨h1, h2⟩ :=
    setup_lights_light_count_eq c_max_forward_lights c_max_shadows ops b render view
  refine ⟨h1.trans h2.symm, h1, ?_⟩
  intro hcap
  have hlt : min render.m_shot.m_lights.length c_max_forward_lights < 2 ^ 16 :=
    Nat.lt_of_le_of_lt (Nat.min_le_right _ _) hcap
  rw [h1, h2, Nat.mod_eq_of_lt hlt, setup_lights_gpu_lights, List.length_map, take_min_length]
  exact ⟨rfl, rfl, rfl⟩

/-- C22. After setup_lights, for every surviving index i the shadow placeholder
GpuLightShadow[i] has matrix = c_max_shadows, bias = shadow_bias of input light
i, radius = 1, atlas offset (0, 0) and atlas scale (0, 0); any two placeholders
agree on every field but the bias. -/
theorem setup_lights_shadow_placeholder (c_max_forward_lights c_max_shadows : Nat)
    (ops : FloatOps F V M C) (b : BlockLight F V C) (render : Render F V M C) (view : M) :
    (∀ i : Nat, i < min render.m_shot.m_lights.length c_max_forward_lights →
      ∃ light : Light F V C, render.m_shot.m_lights[i]? = some light ∧
        (setup_lights c_max_forward_lights c_max_shadows ops b render view).m_gpu_shadows[i]?
          = some
            { matrix := ops.of_size c_max_shadows
              bias := light.m_shadow_bias
              radius := ops.one
              atlas_offset := (ops.zero, ops.zero)
              atlas_scale := (ops.zero, ops.zero) }) ∧
    ∀ (i j : Nat) (s1 s2 : GpuLightShadow F),
      (setup_lights c_max_forward_lights c_max_shadows ops b render view).m_gpu_shadows[i]?
        = some s1 →
      (setup_lights c_max_forward_lights c_max_shadows ops b render view).m_gpu_shadows[j]?
        = some s2 →
      s1.matrix = s2.matrix ∧ s1.radius = s2.radius ∧ s1.atlas_offset = s2.atlas_offset ∧
        s1.atlas_scale = s2.atlas_scale := by
  rw [setup_lights_gpu_shadows]
  refine ⟨?_, ?_⟩
  · intro i hi
    have hlt : i < (render.m_shot.m_lights.take
        (min render.m_shot.m_lights.length c_max_forward_lights)).length := by
      rw [take_min_length]; exact hi
    have hsome := List.getElem?_eq_getElem hlt
    rw [List.getElem?_map, hsome]
    exact ⟨_, (getElem?_of_take hsome).1, rfl⟩
  · intro i j s1 s2 h1 h2
    rw [List.getElem?_map] at h1 h2
    cases hl1 : (render.m_shot.m_lights.take
        (min render.m_shot.m_lights.length c_max_forward_lights))[i]? with
    | none => rw [hl1] at h1; exact Option.noConfusion h1
    | some l1 =>
      cases hl2 : (render.m_shot.m_lights.take
          (min render.m_shot.m_lights.length c_max_forward_lights))[j]? with
      | none => rw [hl2] at h2; exact Option.noConfusion h2
      | some l2 =>
        rw [hl1] at h1
        rw [hl2] at h2
        have e1 := Option.some.inj h1
        have e2 := Option.some.inj h2
        rw [← e1, ← e2]
        exact ⟨rfl, rfl, rfl, rfl⟩

/-- C23. Binning is stable within a type: after setup_lights, for every light type
t and all slots k1 < k2 below light_counts[t], light_indices[k1][t] is below
light_indices[k2][t]; the lights of one type are listed in input order. -/
theorem setup_lights_stable_within_type (c_max_forward_lights c_max_shadows : Nat)
    (ops : FloatOps F V M C) (b : BlockLight F V C) (render : Render F V M C) (view : M)
    (t : LightType) (k1 k2 : Nat) (h12 : k1 < k2)
    (h2 : k2 < (setup_lights c_max_forward_lights c_max_shadows ops b render
      view).m_zones.m_light_counts t.index) :
    (setup_lights c_max_forward_lights c_max_shadows ops b render view).m_zones.m_light_indices
        k1 t.index
      < (setup_lights c_max_forward_lights c_max_shadows ops b render
          view).m_zones.m_light_indices k2 t.index :=
  (setup_lights_zone c_max_forward_lights c_max_shadows ops b render view).mono t.index k1 k2
    h12 h2

/-- C25. Capacity invariant of the zone record: after setup_lights the components
of light_counts add up to at most c_max_forward_lights; every entry
light_indices[k][t] written by the call has k below min(N, c_max_forward_lights)
and t the index of one of the light types Point, Direct, Spot, below the 4
components of light_counts. -/
theorem setup_lights_capacity (c_max_forward_lights c_max_shadows : Nat)
    (ops : FloatOps F V M C) (b : BlockLight F V C) (render : Render F V M C) (view : M) :
    ∑ c : Fin 4,
        (setup_lights c_max_forward_lights c_max_shadows ops b render view).m_zones.m_light_counts c
      ≤ c_max_forward_lights ∧
    ∀ p ∈ setup_lights_writes c_max_forward_lights ops b render view,
      p.1 < min render.m_shot.m_lights.length c_max_forward_lights ∧
      (∃ t : LightType, p.2 = t.index) ∧ (p.2 : Nat) < 4 := by
  constructor
  · have h := setup_lights_zone c_max_forward_lights c_max_shadows ops b render view
    simp only [h.counts]
    rw [sum_countP_index, take_min_length]
    exact Nat.min_le_right _ _
  · intro p hp
    obtain ⟨_, hhi, light, _, hl⟩ := bin_writes_range ops view _ 0 _ p hp
    rw [← (setup_lights_zone_eq c_max_forward_lights c_max_shadows ops b render view).1] at hhi
    exact ⟨Nat.lt_of_lt_of_le hhi
      (setup_lights_count_le c_max_forward_lights c_max_shadows ops b render view p.2),
      ⟨light.m_type, hl⟩, p.2.isLt⟩

/-- C26. setup_lights writes light_indices only at entries (k, t) with k below
light_counts[t], the counts after the call; every other entry of the table keeps
the value it had before the call. -/
theorem setup_lights_writes_below_counts (c_max_forward_lights c_max_shadows : Nat)
    (ops : FloatOps F V M C) (b : BlockLight F V C) (render : Render F V M C) (view : M) :
    (∀ p ∈ setup_lights_writes c_max_forward_lights ops b render view,
      p.1 < (setup_lights c_max_forward_lights c_max_shadows ops b render
        view).m_zones.m_light_counts p.2) ∧
    ∀ (k : Nat) (c : Fin 4),
      ¬ k < (setup_lights c_max_forward_lights c_max_shadows ops b render
        view).m_zones.m_light_counts c →
      (setup_lights c_max_forward_lights c_max_shadows ops b render view).m_zones.m_light_indices
          k c
        = b.m_zones.m_light_indices k c := by
  obtain ⟨hc, hi⟩ := setup_lights_zone_eq c_max_forward_lights c_max_shadows ops b render view
  constructor
  · intro p hp
    rw [hc]
    exact (bin_writes_range ops view _ 0 _ p hp).2.1
  · intro k c hk
    rw [hc] at hk
    rw [hi]
    exact (bin_loop_indices_beyond ops view _ 0 _).2 k c (Nat.le_of_not_lt hk)

end ClaimsF

/-! ## Round-robin index, translate action, file lookup and frame loop -/

section ClaimsG

variable {F V M C : Type}

/-- The classification step of `begin_render` keeps the round-robin index and
tracks the Direct lights of the shot. -/
theorem begin_render_classify_fields (b : BlockLight F V C) (render : Render F V M C) :
    (begin_render_classify b render).m_direct_light_index = b.m_direct_light_index ∧
    (begin_render_classify b render).m_direct_lights
      = render.m_shot.m_lights.filter (fun light => decide (light.m_type = LightType.Direct)) := by
  have h := classify_direct_lights render.m_shot.m_lights { b with m_direct_lights := [] }
  simp only [begin_render_classify]
  exact ⟨h.2.2, by simpa using h.1⟩

/-- The round-robin index after `begin_render`. -/
theorem begin_render_index (c_max_forward_lights c_max_shadows : Nat)
    (ops : FloatOps F V M C) (b : BlockLight F V C) (render : Render F V M C) :
    (begin_render c_max_forward_lights c_max_shadows ops b render).m_direct_light_index = 0 :=
  rfl

/-- The round-robin index after a sequence of `begin_render` calls that starts
from index 0. -/
theorem begin_render_sequence_index (c_max_forward_lights c_max_shadows : Nat)
    (ops : FloatOps F V M C) (renders : List (Render F V M C)) (b : BlockLight F V C)
    (h0 : b.m_direct_light_index = 0) :
    (renders.foldl (begin_render c_max_forward_lights c_max_shadows ops)
      b).m_direct_light_index = 0 := by
  induction renders generalizing b with
  | nil => exact h0
  | cons r rs ih =>
    rw [List.foldl_cons]
    exact ih _ (begin_render_index c_max_forward_lights c_max_shadows ops b r)

/-- C24. In the default configuration the round-robin index is 0 after every
begin_render. Starting from an index of 0, before and after any sequence of
begin_render calls the index is 0, so in the next call the index used at line 85
and at line 93 is 0, and whenever the tracked direct lights are non-empty the
selection m_direct_lights[index] is in bounds and yields a light. -/
theorem begin_render_index_zero (c_max_forward_lights c_max_shadows : Nat)
    (ops : FloatOps F V M C) (b : BlockLight F V C) (render : Render F V M C)
    (renders : List (Render F V M C)) :
    (begin_render c_max_forward_lights c_max_shadows ops b render).m_direct_light_index = 0 ∧
    (b.m_direct_light_index = 0 →
      (renders.foldl (begin_render c_max_forward_lights c_max_shadows ops)
        b).m_direct_light_index = 0 ∧
      (begin_render_classify
        (renders.foldl (begin_render c_max_forward_lights c_max_shadows ops) b)
        render).m_direct_light_index = 0 ∧
      ((begin_render_classify
          (renders.foldl (begin_render c_max_forward_lights c_max_shadows ops) b)
          render).m_direct_lights ≠ [] →
        (begin_render_classify
          (renders.foldl (begin_render c_max_forward_lights c_max_shadows ops) b)
          render).m_direct_light_index
          < (begin_render_classify
              (renders.foldl (begin_render c_max_forward_lights c_max_shadows ops) b)
              render).m_direct_lights.length ∧
        (select_direct_light (begin_render_classify
          (renders.foldl (begin_render c_max_forward_lights c_max_shadows ops) b)
          render)).isSome = true) ∧
      ((begin_render c_max_forward_lights c_max_shadows ops
          (renders.foldl (begin_render c_max_forward_lights c_max_shadows ops) b)
          render).m_direct_lights ≠ [] →
        (begin_render c_max_forward_lights c_max_shadows ops
          (renders.foldl (begin_render c_max_forward_lights c_max_shadows ops) b)
          render).m_direct_light_index
          < (begin_render c_max_forward_lights c_max_shadows ops
              (renders.foldl (begin_render c_max_forward_lights c_max_shadows ops) b)
              render).m_direct_lights.length ∧
        (begin_render c_max_forward_lights c_max_shadows ops
          (renders.foldl (begin_render c_max_forward_lights c_max_shadows ops) b)
          render).m_direct_light.isSome = true)) := by
  refine ⟨rfl, ?_⟩
  intro h0
  have hseq := begin_render_sequence_index c_max_forward_lights c_max_shadows ops renders b h0
  have hcls := begin_render_classify_fields
    (renders.foldl (begin_render c_max_forward_lights c_max_shadows ops) b) render
  have hidx : (begin_render_classify
      (renders.foldl (begin_render c_max_forward_lights c_max_shadows ops) b)
      render).m_direct_light_index = 0 := by rw [hcls.1, hseq]
  refine ⟨hseq, hidx, ?_, ?_⟩
  · intro hne
    have hpos := List.length_pos.mpr hne
    refine ⟨by rw [hidx]; exact hpos, ?_⟩
    simp only [select_direct_light, hidx]
    rw [if_neg (by simpa using hne), List.getElem?_eq_getElem hpos]
    rfl
  · intro hne
    have hpos := List.length_pos.mpr hne
    refine ⟨by rw [begin_render_index]; exact hpos, ?_⟩
    rw [begin_render_direct_light]
    rw [begin_render_direct_lights] at hne hpos
    rw [if_neg (by simpa using hne), List.getElem?_eq_getElem hpos]
    rfl

end ClaimsG

section ClaimsH

variable {V Q : Type} [AddCommGroup V]

/-- C27. undo reverses apply in exact arithmetic: applying then undoing, or undoing
then applying, restores the position of the transform; apply and undo leave the
rotation and the scale of the transform and the action, with its translation, as
they are. -/
theorem translate_undo_reverses_apply (action : TranslateAction V)
    (transform : Transform V Q) :
    ((action.apply transform).1.undo (action.apply transform).2).2 = transform ∧
    ((action.undo transform).1.apply (action.undo transform).2).2 = transform ∧
    (action.apply transform).1 = action ∧ (action.undo transform).1 = action ∧
    (action.apply transform).2.m_rotation = transform.m_rotation ∧
    (action.apply transform).2.m_scale = transform.m_scale ∧
    (action.undo transform).2.m_rotation = transform.m_rotation ∧
    (action.undo transform).2.m_scale = transform.m_scale := by
  refine ⟨?_, ?_, rfl, rfl, rfl, rfl, rfl, rfl⟩
  · cases transform
    simp [TranslateAction.apply, TranslateAction.undo]
  · cases transform
    simp [TranslateAction.apply, TranslateAction.undo]

/-- C28. A newly constructed TranslateAction has zero translation and its apply
leaves the transform unchanged; after update(start, end) the translation is
end - start whatever the action held before, earlier updates included, and apply
then moves the position by exactly end - start. -/
theorem translate_update_replaces (targets : List Nat) (action : TranslateAction V)
    (transform : Transform V Q) (start finish start0 finish0 : V) :
    (TranslateAction.construct targets : TranslateAction V).m_translation = 0 ∧
    ((TranslateAction.construct targets : TranslateAction V).apply transform).2 = transform ∧
    (action.update start finish).m_translation = finish - start ∧
    ((action.update start0 finish0).update start finish).m_translation = finish - start ∧
    ((action.update start finish).apply transform).2.m_position
      = transform.m_position + (finish - start) ∧
    ((action.update start finish).apply transform).2.m_rotation = transform.m_rotation ∧
    ((action.update start finish).apply transform).2.m_scale = transform.m_scale := by
  refine ⟨rfl, ?_, rfl, rfl, rfl, rfl, rfl⟩
  cases transform
  simp [TranslateAction.apply, TranslateAction.construct]

end ClaimsH

section ClaimsI

/-- The located file built from a candidate. -/
theorem locate_file_extensions_eq (file_exists : String → Bool) (path file : String)
    (extensions : List String) (i : Nat) :
    locate_file_extensions file_exists path file extensions i
      = (((extensions.enumFrom i).map (fun indexed => (path, indexed.2, indexed.1))).find?
          (fun candidate => file_exists (candidate_path file candidate))).map
          (fun candidate =>
            { m_located := true, m_location := candidate.1, m_name := file,
              m_extension := candidate.2.1, m_extension_index := candidate.2.2 }) := by
  induction extensions generalizing i with
  | nil => rfl
  | cons e es ih =>
    simp only [locate_file_extensions, List.enumFrom_cons, List.map_cons, List.find?_cons]
    by_cases he : file_exists (path ++ "/" ++ file ++ e) = true
    · simp [candidate_path, he]
    · have he2 : file_exists (path ++ "/" ++ file ++ e) = false := by simpa using he
      simp only [candidate_path, he2]
      simpa [candidate_path] using ih (i + 1)

/-- The loops of `locate_file` return the first existing candidate. -/
theorem locate_file_paths_eq (file_exists : String → Bool) (file : String)
    (extensions : List String) (paths : List String) :
    locate_file_paths file_exists file extensions paths
      = ((locate_candidates paths extensions).find?
          (fun candidate => file_exists (candidate_path file candidate))).map
          (fun candidate =>
            { m_located := true, m_location := candidate.1, m_name := file,
              m_extension := candidate.2.1, m_extension_index := candidate.2.2 }) := by
  induction paths with
  | nil => rfl
  | cons p ps ih =>
    simp only [locate_file_paths, locate_candidates, List.flatMap_cons, List.find?_append]
    rw [locate_file_extensions_eq]
    cases hf : ((extensions.enumFrom 0).map (fun indexed => (p, indexed.2, indexed.1))).find?
        (fun candidate => file_exists (candidate_path file candidate)) with
    | some c => simp
    | none =>
      simp only [Option.map_none', Option.none_or]
      exact ih

/-- The candidates are the pairs of a resource path and an extension at its index. -/
theorem mem_locate_candidates (paths extensions : List String)
    (candidate : String × String × Nat) :
    candidate ∈ locate_candidates paths extensions ↔
      candidate.1 ∈ paths ∧ extensions[candidate.2.2]? = some candidate.2.1 := by
  obtain ⟨p, e, i⟩ := candidate
  simp only [locate_candidates, List.mem_flatMap, List.mem_map, Prod.mk.injEq, Prod.exists]
  constructor
  · rintro ⟨p0, hp0, j, e0, hmem, rfl, rfl, rfl⟩
    refine ⟨hp0, ?_⟩
    have := List.mk_mem_enumFrom_iff_le_and_getElem?_sub.mp hmem
    simpa using this
  · rintro ⟨hp, he⟩
    refine ⟨p, hp, i, e, ?_, rfl, rfl, rfl⟩
    exact List.mk_mem_enumFrom_iff_le_and_getElem?_sub.mpr ⟨Nat.zero_le _, by simpa using he⟩

end ClaimsI

section ClaimsJ

/-- C29. locate_file(file, extensions) returns the first existing candidate
path + "/" + file + extensions[i], the candidates taken resource path by resource
path and, within a path, extension by extension, and reports that path, the
file, the extension and its index i; it returns the empty LocatedFile if and only
if no candidate exists, in particular without resource paths or without
extensions. add_resource_path appends the path at the back of the resource
paths. -/
theorem locate_file_first_candidate (file_exists : String → Bool) (gfx : GfxSystem)
    (file : String) (extensions : List String) :
    (∀ (pre post : List (String × String × Nat)) (candidate : String × String × Nat),
      locate_candidates gfx.m_resource_paths extensions = pre ++ candidate :: post →
      (∀ earlier ∈ pre, file_exists (candidate_path file earlier) = false) →
      file_exists (candidate_path file candidate) = true →
      gfx.locate_file file_exists file extensions
        = { m_located := true, m_location := candidate.1, m_name := file,
            m_extension := candidate.2.1, m_extension_index := candidate.2.2 }) ∧
    (gfx.locate_file file_exists file extensions = LocatedFile.empty ↔
      ∀ candidate ∈ locate_candidates gfx.m_resource_paths extensions,
        file_exists (candidate_path file candidate) = false) ∧
    (gfx.m_resource_paths = [] →
      gfx.locate_file file_exists file extensions = LocatedFile.empty) ∧
    (extensions = [] → gfx.locate_file file_exists file extensions = LocatedFile.empty) ∧
    (∀ candidate : String × String × Nat,
      candidate ∈ locate_candidates gfx.m_resource_paths extensions ↔
        candidate.1 ∈ gfx.m_resource_paths ∧
        extensions[candidate.2.2]? = some candidate.2.1) ∧
    (∀ (path : String) (relative : Bool),
      (gfx.add_resource_path path relative).m_resource_paths
        = gfx.m_resource_paths ++
            [if relative then gfx.m_resource_path ++ "/" ++ path else path] ∧
      locate_candidates (gfx.add_resource_path path relative).m_resource_paths extensions
        = locate_candidates gfx.m_resource_paths extensions ++
            locate_candidates
              [if relative then gfx.m_resource_path ++ "/" ++ path else path] extensions) := by
  have hempty : gfx.locate_file file_exists file extensions = LocatedFile.empty ↔
      ∀ candidate ∈ locate_candidates gfx.m_resource_paths extensions,
        file_exists (candidate_path file candidate) = false := by
    simp only [GfxSystem.locate_file]
    rw [locate_file_paths_eq]
    cases hf : (locate_candidates gfx.m_resource_paths extensions).find?
        (fun candidate => file_exists (candidate_path file candidate)) with
    | none =>
      rw [List.find?_eq_none] at hf
      simp only [Option.map_none', true_iff]
      intro candidate hmem
      simpa using hf candidate hmem
    | some c =>
      have hc := List.find?_some hf
      have hmem := List.mem_of_find?_eq_some hf
      simp only [Option.map_some', LocatedFile.empty]
      constructor
      · intro h
        have := congrArg LocatedFile.m_located h
        simp at this
      · intro h
        have := h c hmem
        rw [this] at hc
        exact absurd hc (by decide)
  refine ⟨?_, hempty, ?_, ?_, mem_locate_candidates _ _, ?_⟩
  · intro pre post candidate hl hpre hc
    simp only [GfxSystem.locate_file]
    rw [locate_file_paths_eq, hl, List.find?_append]
    have hnone : pre.find? (fun candidate => file_exists (candidate_path file candidate))
        = none := by
      rw [List.find?_eq_none]
      intro x hx
      simpa using hpre x hx
    rw [hnone, List.find?_cons, hc]
    rfl
  · intro hp
    rw [hempty, hp]
    intro candidate hmem
    simp [locate_candidates] at hmem
  · intro he
    rw [hempty, he]
    intro candidate hmem
    simp [locate_candidates] at hmem
  · intro path relative
    refine ⟨rfl, ?_⟩
    simp only [GfxSystem.add_resource_path, locate_candidates, List.flatMap_append]

end ClaimsJ

section ClaimsK

variable {W : Type}

/-- The loop over the contexts calls each context once, in order, and keeps
`pursue` equal to the conjunction of the values returned so far. -/
theorem begin_frame_loop (context_begin_frame : W → Nat → Bool × W) (contexts : List Nat)
    (run : FrameRun W) :
    ((contexts.foldl (begin_frame_context context_begin_frame) run).calls.map Prod.fst
      = run.calls.map Prod.fst ++ contexts) ∧
    (run.pursue = run.calls.all (fun call => call.2) →
      (contexts.foldl (begin_frame_context context_begin_frame) run).pursue
        = (contexts.foldl (begin_frame_context context_begin_frame) run).calls.all
            (fun call => call.2)) := by
  induction contexts generalizing run with
  | nil => simp
  | cons c cs ih =>
    obtain ⟨h1, h2⟩ := ih (begin_frame_context context_begin_frame run c)
    simp only [List.foldl_cons]
    refine ⟨?_, ?_⟩
    · rw [h1]
      simp [begin_frame_context]
    · intro hrun
      apply h2
      simp [begin_frame_context, hrun]

/-- The constructor of a window pushes the context at the back of the contexts. -/
theorem register_context_contexts (gfx : GfxSystem) (context : Nat) :
    (gfx.register_context context).m_contexts = gfx.m_contexts ++ [context] := by
  cases hi : gfx.m_initialized <;> simp [GfxSystem.register_context, GfxSystem.init, hi]

/-- The constructor of a window keeps an existing program store, and creates one
on a system that is not initialised. -/
theorem register_context_programs (gfx : GfxSystem) (context : Nat)
    (h : gfx.m_programs.isSome = true ∨ gfx.m_initialized = false) :
    (gfx.register_context context).m_programs.isSome = true := by
  cases hi : gfx.m_initialized
  · simp [GfxSystem.register_context, GfxSystem.init, hi]
  · rcases h with h | h
    · simpa [GfxSystem.register_context, hi] using h
    · rw [hi] at h; exact absurd h (by decide)

/-- After the windows of `contexts` have been constructed in order, the contexts
are appended in that order and an existing program store is still there. -/
theorem register_contexts_fields (contexts : List Nat) (gfx : GfxSystem) :
    (contexts.foldl GfxSystem.register_context gfx).m_contexts = gfx.m_contexts ++ contexts ∧
    (gfx.m_programs.isSome = true →
      (contexts.foldl GfxSystem.register_context gfx).m_programs.isSome = true) := by
  induction contexts generalizing gfx with
  | nil => exact ⟨by simp, fun h => h⟩
  | cons c cs ih =>
    obtain ⟨k1, k2⟩ := ih (gfx.register_context c)
    simp only [List.foldl_cons]
    refine ⟨by rw [k1, register_context_contexts]; simp, fun h => ?_⟩
    exact k2 (register_context_programs gfx c (Or.inl h))

/-- With a program store, `begin_frame` returns, has called every context once in
order, and `pursue` is the conjunction of the values the calls returned. -/
theorem begin_frame_run (program_update block_begin_frame : W → Nat → W)
    (context_begin_frame : W → Nat → Bool × W) (gfx : GfxSystem) (world : W)
    (hprog : gfx.m_programs.isSome = true) :
    ∃ run : FrameRun W,
      gfx.begin_frame program_update block_begin_frame context_begin_frame world = some run ∧
      run.calls.map Prod.fst = gfx.m_contexts ∧
      (run.pursue = true ↔ ∀ call ∈ run.calls, call.2 = true) := by
  cases hp : gfx.m_programs with
  | none => rw [hp] at hprog; exact absurd hprog (by decide)
  | some programs =>
    have h := begin_frame_loop context_begin_frame gfx.m_contexts
      { world := gfx.m_gfx_blocks.foldl block_begin_frame
          (programs.foldl program_update world)
        pursue := true
        calls := [] }
    have hbf : gfx.begin_frame program_update block_begin_frame context_begin_frame world
        = some (gfx.m_contexts.foldl (begin_frame_context context_begin_frame)
            { world := gfx.m_gfx_blocks.foldl block_begin_frame
                (programs.foldl program_update world)
              pursue := true
              calls := [] }) := by
      simp only [GfxSystem.begin_frame, hp]
    refine ⟨_, hbf, by simpa using h.1, ?_⟩
    rw [h.2 rfl, List.all_eq_true]

/-- Counterexample for C30: a graphics system on which no window has been
constructed has no context and a null program store, and begin_frame does not
return on it, so it does not return true. -/
theorem begin_frame_without_context :
    (GfxSystem.construct "data").m_contexts = [] ∧
    (GfxSystem.construct "data").m_programs = none ∧
    (GfxSystem.construct "data").begin_frame sampleUpdate sampleUpdate
      sampleContextBeginFrame 0 = none ∧
    ((GfxSystem.construct "data").begin_frame sampleUpdate sampleUpdate
      sampleContextBeginFrame 0).map (fun run => run.pursue) ≠ some true := by
  refine ⟨rfl, rfl, rfl, ?_⟩
  intro h
  exact Option.noConfusion h

/-- C30, amended. When the program store exists, begin_frame returns, and it
returns true if and only if every call of begin_frame on a registered context
returned true; it calls begin_frame on every context exactly once, in
registration order, whatever the earlier calls returned. The store exists once a
window has been constructed: after the windows of one or more contexts have been
constructed on a new graphics system, the contexts are registered in
construction order and begin_frame returns in this way. -/
theorem begin_frame_all_contexts (program_update block_begin_frame : W → Nat → W)
    (context_begin_frame : W → Nat → Bool × W) (gfx : GfxSystem) (world : W) :
    (∀ programs : List Nat, gfx.m_programs = some programs →
      ∃ run : FrameRun W,
        gfx.begin_frame program_update block_begin_frame context_begin_frame world
          = some run ∧
        run.calls.map Prod.fst = gfx.m_contexts ∧
        (run.pursue = true ↔ ∀ call ∈ run.calls, call.2 = true)) ∧
    (∀ (programs : List Nat) (result : Nat → Bool), gfx.m_programs = some programs →
      ∃ run : FrameRun W,
        gfx.begin_frame program_update block_begin_frame
          (fun w context => (result context, w)) world = some run ∧
        run.calls = gfx.m_contexts.map (fun context => (context, result context)) ∧
        run.pursue = gfx.m_contexts.all result) ∧
    (∀ (resource_path : String) (context : Nat) (contexts : List Nat),
      ((context :: contexts).foldl GfxSystem.register_context
        (GfxSystem.construct resource_path)).m_contexts = context :: contexts ∧
      ∃ run : FrameRun W,
        ((context :: contexts).foldl GfxSystem.register_context
          (GfxSystem.construct resource_path)).begin_frame program_update block_begin_frame
          context_begin_frame world = some run ∧
        run.calls.map Prod.fst = context :: contexts ∧
        (run.pursue = true ↔ ∀ call ∈ run.calls, call.2 = true)) := by
  refine ⟨?_, ?_, ?_⟩
  · intro programs hp
    exact begin_frame_run program_update block_begin_frame context_begin_frame gfx world
      (by rw [hp]; rfl)
  · intro programs result hp
    have hcalls : ∀ (contexts : List Nat) (run : FrameRun W),
        (contexts.foldl (begin_frame_context (fun w context => (result context, w)))
          run).calls = run.calls ++ contexts.map (fun context => (context, result context)) := by
      intro contexts
      induction contexts with
      | nil => intro run; simp
      | cons c cs ih =>
        intro run
        rw [List.foldl_cons, ih]
        simp [begin_frame_context]
    have hloop := begin_frame_loop (fun w context => (result context, w)) gfx.m_contexts
      { world := gfx.m_gfx_blocks.foldl block_begin_frame
          (programs.foldl program_update world)
        pursue := true
        calls := [] }
    have hbf : gfx.begin_frame program_update block_begin_frame
        (fun w context => (result context, w)) world
        = some (gfx.m_contexts.foldl
            (begin_frame_context (fun w context => (result context, w)))
            { world := gfx.m_gfx_blocks.foldl block_begin_frame
                (programs.foldl program_update world)
              pursue := true
              calls := [] }) := by
      simp only [GfxSystem.begin_frame, hp]
    refine ⟨_, hbf, ?_, ?_⟩
    · rw [hcalls]; rfl
    · rw [hloop.2 rfl, hcalls]
      simp only [List.nil_append]
      generalize gfx.m_contexts = contexts
      induction contexts with
      | nil => rfl
      | cons c cs ih => simp only [List.map_cons, List.all_cons, ih]
  · intro resource_path context contexts
    have hreg := register_contexts_fields contexts
      ((GfxSystem.construct resource_path).register_context context)
    have hfirst := register_context_programs (GfxSystem.construct resource_path) context
      (Or.inr rfl)
    have hctx : ((context :: contexts).foldl GfxSystem.register_context
        (GfxSystem.construct resource_path)).m_contexts = context :: contexts := by
      rw [List.foldl_cons, hreg.1, register_context_contexts]
      rfl
    refine ⟨hctx, ?_⟩
    obtain ⟨run, hrun, hcalls, hiff⟩ := begin_frame_run program_update block_begin_frame
      context_begin_frame
      ((context :: contexts).foldl GfxSystem.register_context
        (GfxSystem.construct resource_path)) world (hreg.2 hfirst)
    exact ⟨run, hrun, by rw [hcalls, hctx], hiff⟩

end ClaimsK

/-! ## Evaluation on concrete frames -/

/-- Witness for C1: the six lights of the scenario under a cap of 16. -/
theorem setup_lights_snapshot_under_cap_witness :
    (sampleRender scenarioLights).m_shot.m_lights.length ≤ 16 ∧
    (setup_lights 16 8 intOps staleBlock (sampleRender scenarioLights) 7).m_gpu_lights.length
      = 6 ∧
    (setup_lights 16 8 intOps staleBlock (sampleRender scenarioLights) 7).m_gpu_lights[1]?
      = some
        { position := 9, range := 20, energy := 6, specular := 4, direction := 21,
          attenuation := 5, spot_attenuation := 7, spot_cutoff := -5 } :=
  ⟨by decide,
   (setup_lights_snapshot_under_cap 16 8 intOps staleBlock (sampleRender scenarioLights) 7
      (by decide)).1,
   (setup_lights_snapshot_under_cap 16 8 intOps staleBlock (sampleRender scenarioLights) 7
      (by decide)).2 1 (sampleLight LightType.Direct 2) rfl⟩

/-- Witness for C2: the six lights of the scenario over a cap of 4. -/
theorem setup_lights_snapshot_over_cap_witness :
    4 < (sampleRender scenarioLights).m_shot.m_lights.length ∧
    (setup_lights 4 8 intOps staleBlock (sampleRender scenarioLights) 7).m_gpu_lights.length
      = 4 ∧
    (setup_lights 4 8 intOps staleBlock (sampleRender scenarioLights) 7).m_gpu_lights[3]?
      = some
        { position := 11, range := 40, energy := 6, specular := 6, direction := 35,
          attenuation := 7, spot_attenuation := 9, spot_cutoff := -7 } :=
  ⟨by decide,
   (setup_lights_snapshot_over_cap 4 8 intOps staleBlock (sampleRender scenarioLights) 7
      (by decide)).1,
   (setup_lights_snapshot_over_cap 4 8 intOps staleBlock (sampleRender scenarioLights) 7
      (by decide)).2 3 (sampleLight LightType.Spot 4) (by decide) rfl⟩

/-- Witness for C3: index 3 of the scenario over a cap of 4. -/
theorem setup_lights_parallel_arrays_witness :
    3 < (setup_lights 4 8 intOps staleBlock (sampleRender scenarioLights) 7).m_gpu_lights.length ∧
    ∃ light : Light Int Int Int, (sampleRender scenarioLights).m_shot.m_lights[3]? = some light ∧
      (setup_lights 4 8 intOps staleBlock (sampleRender scenarioLights) 7).m_gpu_lights[3]?
        = some
          { position := intOps.mulp 7 light.m_node.position
            range := light.m_range
            energy := intOps.to_vec3
              (intOps.scale (intOps.to_linear light.m_colour) light.m_energy)
            specular := light.m_specular
            direction := intOps.muln 7 light.m_node.direction
            attenuation := light.m_attenuation
            spot_attenuation := light.m_spot_attenuation
            spot_cutoff := intOps.cos (intOps.to_radians light.m_spot_angle) } ∧
      (setup_lights 4 8 intOps staleBlock (sampleRender scenarioLights) 7).m_gpu_shadows[3]?
        = some
          { matrix := intOps.of_size 8
            bias := light.m_shadow_bias
            radius := intOps.one
            atlas_offset := (intOps.zero, intOps.zero)
            atlas_scale := (intOps.zero, intOps.zero) } :=
  ⟨by decide,
   (setup_lights_parallel_arrays 4 8 intOps staleBlock (sampleRender scenarioLights) 7).2 3
      (by decide)⟩

/-- Witness for C4: slot 1 of type Direct in the scenario holds light index 4. -/
theorem setup_lights_indices_valid_witness :
    1 < (setup_lights 16 8 intOps staleBlock (sampleRender scenarioLights) 7).m_zones.m_light_counts
      LightType.Direct.index ∧
    (setup_lights 16 8 intOps staleBlock (sampleRender scenarioLights) 7).m_zones.m_light_indices
        1 LightType.Direct.index
      < (setup_lights 16 8 intOps staleBlock (sampleRender scenarioLights) 7).m_gpu_lights.length ∧
    ∃ light : Light Int Int Int,
      (sampleRender scenarioLights).m_shot.m_lights[(setup_lights 16 8 intOps staleBlock
        (sampleRender scenarioLights) 7).m_zones.m_light_indices 1 LightType.Direct.index]?
        = some light ∧ light.m_type = LightType.Direct :=
  ⟨by decide,
   setup_lights_indices_valid 16 8 intOps staleBlock (sampleRender scenarioLights) 7
     LightType.Direct 1 (by decide)⟩

/-- Witness for C5: slot 2 of type Point in the scenario, compared with itself. -/
theorem setup_lights_indices_injective_witness :
    2 < (setup_lights 16 8 intOps staleBlock (sampleRender scenarioLights) 7).m_zones.m_light_counts
      LightType.Point.index ∧
    (setup_lights 16 8 intOps staleBlock (sampleRender scenarioLights) 7).m_zones.m_light_indices
        2 LightType.Point.index = 5 ∧
    (2 = 2 ∧ LightType.Point = LightType.Point) :=
  ⟨by decide, by decide,
   setup_lights_indices_injective 16 8 intOps staleBlock (sampleRender scenarioLights) 7
     LightType.Point LightType.Point 2 2 (by decide) (by decide) rfl⟩

/-- Witness for C7: the scenario of 3 Point, 2 Direct and 1 Spot lights under a
cap of 16. -/
theorem setup_lights_counts_per_type_witness :
    (6 ≤ 16 ∧ (sampleRender scenarioLights).m_shot.m_lights.length = 6 ∧
      (sampleRender scenarioLights).m_shot.m_lights.countP
        (fun light => decide (light.m_type = LightType.Point)) = 3 ∧
      (sampleRender scenarioLights).m_shot.m_lights.countP
        (fun light => decide (light.m_type = LightType.Direct)) = 2 ∧
      (sampleRender scenarioLights).m_shot.m_lights.countP
        (fun light => decide (light.m_type = LightType.Spot)) = 1) ∧
    (begin_render 16 8 intOps staleBlock (sampleRender scenarioLights)).m_direct_lights.length
      = 2 ∧
    (begin_render 16 8 intOps staleBlock (sampleRender scenarioLights)).m_zones.m_light_counts
      LightType.Point.index = 3 ∧
    (begin_render 16 8 intOps staleBlock (sampleRender scenarioLights)).m_zones.m_light_counts
      LightType.Spot.index = 1 ∧
    (begin_render 16 8 intOps staleBlock (sampleRender scenarioLights)).m_gpu_lights.length = 6 :=
  ⟨⟨by decide, by decide, by decide, by decide, by decide⟩,
   ((setup_lights_counts_per_type 16 8 intOps staleBlock (sampleRender scenarioLights) 7).2.2
      (by decide) (by decide) (by decide) (by decide) (by decide)).1,
   ((setup_lights_counts_per_type 16 8 intOps staleBlock (sampleRender scenarioLights) 7).2.2
      (by decide) (by decide) (by decide) (by decide) (by decide)).2.1,
   ((setup_lights_counts_per_type 16 8 intOps staleBlock (sampleRender scenarioLights) 7).2.2
      (by decide) (by decide) (by decide) (by decide) (by decide)).2.2.1,
   ((setup_lights_counts_per_type 16 8 intOps staleBlock (sampleRender scenarioLights) 7).2.2
      (by decide) (by decide) (by decide) (by decide) (by decide)).2.2.2.1⟩

/-- Witness for C8: a frame without lights, from a block that still tracks a
direct light of an earlier frame. -/
theorem begin_render_no_lights_witness :
    (sampleRender []).m_shot.m_lights = [] ∧
    (begin_render 16 8 intOps staleBlock (sampleRender [])).m_gpu_lights = [] ∧
    (begin_render 16 8 intOps staleBlock (sampleRender [])).m_gpu_shadows = [] ∧
    (begin_render 16 8 intOps staleBlock (sampleRender [])).m_direct_light = none ∧
    (options (begin_render 16 8 intOps staleBlock (sampleRender [])) (sampleRender [])
        noOptions).m_options 3 ShaderOption.DIRECT_LIGHT
      = noOptions.m_options 3 ShaderOption.DIRECT_LIGHT :=
  ⟨rfl,
   (begin_render_no_lights 16 8 intOps staleBlock (sampleRender []) noOptions rfl).1,
   (begin_render_no_lights 16 8 intOps staleBlock (sampleRender []) noOptions rfl).2.1,
   (begin_render_no_lights 16 8 intOps staleBlock (sampleRender []) noOptions rfl).2.2.1,
   (begin_render_no_lights 16 8 intOps staleBlock (sampleRender []) noOptions rfl).2.2.2 3⟩

/-- Witness for C10: the first point light of the scenario is not tracked. -/
theorem begin_render_tracks_direct_witness :
    (sampleLight LightType.Point 1).m_type ≠ LightType.Direct ∧
    sampleLight LightType.Point 1
      ∉ (begin_render 16 8 intOps staleBlock (sampleRender scenarioLights)).m_direct_lights :=
  ⟨by decide,
   (begin_render_tracks_direct 16 8 intOps staleBlock (sampleRender scenarioLights)).2.2
     (sampleLight LightType.Point 1) (by decide)⟩


/-- Witness for C11: in the scenario the first Direct light comes second. -/
theorem begin_render_active_direct_light_witness :
    (sampleRender scenarioLights).m_shot.m_lights
      = [sampleLight LightType.Point 1] ++ sampleLight LightType.Direct 2 ::
          [sampleLight LightType.Point 3, sampleLight LightType.Spot 4,
           sampleLight LightType.Direct 5, sampleLight LightType.Point 6] ∧
    (∀ other ∈ [sampleLight LightType.Point 1], other.m_type ≠ LightType.Direct) ∧
    (sampleLight LightType.Direct 2).m_type = LightType.Direct ∧
    (begin_render 16 8 intOps staleBlock (sampleRender scenarioLights)).m_direct_light
      = some (sampleLight LightType.Direct 2) :=
  ⟨rfl, by decide, rfl,
   (begin_render_active_direct_light 16 8 intOps staleBlock (sampleRender scenarioLights)).1
     [sampleLight LightType.Point 1]
     [sampleLight LightType.Point 3, sampleLight LightType.Spot 4,
      sampleLight LightType.Direct 5, sampleLight LightType.Point 6]
     (sampleLight LightType.Direct 2) rfl (by decide) rfl⟩

/-- Witness for C12: a block with an active direct light and a cleared flag. -/
theorem options_direct_light_iff_witness :
    noOptions.m_options staleBlock.m_index ShaderOption.DIRECT_LIGHT = false ∧
    staleBlock.m_direct_light ≠ none ∧
    (options staleBlock (sampleRender scenarioLights) noOptions).m_options staleBlock.m_index
      ShaderOption.DIRECT_LIGHT = true :=
  ⟨rfl, by decide,
   ((options_direct_light_iff staleBlock (sampleRender scenarioLights) noOptions).2 rfl).2
     (by decide)⟩

/-- Witness for C13: an environment with fog enabled and a cleared flag. -/
theorem options_fog_iff_witness :
    noOptions.m_options staleBlock.m_index ShaderOption.FOG = false ∧
    (∃ env : Environment, fogRender.m_env = some env ∧ env.m_fog.m_enabled = true) ∧
    (options staleBlock fogRender noOptions).m_options staleBlock.m_index ShaderOption.FOG
      = true :=
  ⟨rfl, ⟨_, rfl, rfl⟩,
   ((options_fog_iff staleBlock fogRender noOptions).2.1 rfl).2 ⟨_, rfl, rfl⟩⟩

/-- Witness for C14: a clustered camera with a cleared flag, and a flag of another
block set before the call. -/
theorem options_clustered_monotone_witness :
    noOptions.m_options 0 ShaderOption.CLUSTERED = false ∧
    fogRender.m_camera.m_clustered = true ∧
    (options staleBlock fogRender noOptions).m_options 0 ShaderOption.CLUSTERED = true ∧
    (noOptions.set_option 2 ShaderOption.FOG true).m_options 2 ShaderOption.FOG = true ∧
    (options staleBlock fogRender (noOptions.set_option 2 ShaderOption.FOG true)).m_options 2
      ShaderOption.FOG = true :=
  ⟨rfl, rfl,
   ((options_clustered_monotone staleBlock fogRender noOptions).2.1 rfl).2 rfl,
   rfl,
   (options_clustered_monotone staleBlock fogRender
      (noOptions.set_option 2 ShaderOption.FOG true)).2.2 2 ShaderOption.FOG rfl⟩

/-- Witness for C15 as amended: with the flags off the upload of
GpuState<ZoneLights> in submit is covered by init_block; with the flags on the
pack of GpuState<GpuLight> is not. -/
theorem init_block_covers_uploads_witness :
    GpuCall.upload GpuStateKind.ZoneLights
        ∈ (submit flagsOff staleBlock (sampleRender scenarioLights)).2 ∧
    GpuStateKind.ZoneLights ≠ GpuStateKind.Zone ∧
    GpuCall.init GpuStateKind.ZoneLights ∈ init_block flagsOff ∧
    GpuCall.pack GpuStateKind.GpuLight ∈ begin_render_calls flagsOn ∧
    GpuCall.init GpuStateKind.GpuLight ∉ init_block flagsOn :=
  ⟨by decide, by decide,
   (init_block_covers_uploads flagsOff staleBlock (sampleRender scenarioLights)
      GpuStateKind.ZoneLights).2.1 (by decide) (by decide),
   by decide,
   (init_block_covers_uploads flagsOn staleBlock (sampleRender scenarioLights)
      GpuStateKind.GpuLight).2.2.2 (by decide)⟩

/-- Witness for C16: two frames that differ only beyond a cap of 4. -/
theorem setup_lights_ignores_excess_witness :
    (sampleRender scenarioLights).m_shot.m_lights.take 4
      = (sampleRender scenarioVariant).m_shot.m_lights.take 4 ∧
    (sampleRender scenarioLights).m_shot.m_lights ≠ (sampleRender scenarioVariant).m_shot.m_lights ∧
    (setup_lights 4 8 intOps staleBlock (sampleRender scenarioLights) 7).m_gpu_lights
      = (setup_lights 4 8 intOps staleBlock (sampleRender scenarioVariant) 7).m_gpu_lights ∧
    (setup_lights 4 8 intOps staleBlock (sampleRender scenarioLights) 7).m_light_count
      = (setup_lights 4 8 intOps staleBlock (sampleRender scenarioVariant) 7).m_light_count :=
  ⟨by decide, by decide,
   (setup_lights_ignores_excess 4 8 intOps staleBlock (sampleRender scenarioLights)
      (sampleRender scenarioVariant) 7 (by decide)).1,
   (setup_lights_ignores_excess 4 8 intOps staleBlock (sampleRender scenarioLights)
      (sampleRender scenarioVariant) 7 (by decide)).2.2.2.2.2⟩

/-- Witness for C18: a light with range -10 goes through unchanged. -/
theorem setup_lights_passes_fields_through_witness :
    0 < min (sampleRender negativeRangeLights).m_shot.m_lights.length 16 ∧
    (sampleLight LightType.Point (-1)).m_range < 0 ∧
    ∃ (light : Light Int Int Int) (gpu : GpuLight Int Int),
      (sampleRender negativeRangeLights).m_shot.m_lights[0]? = some light ∧
      (setup_lights 16 8 intOps staleBlock (sampleRender negativeRangeLights) 7).m_gpu_lights[0]?
        = some gpu ∧
      gpu.range = light.m_range ∧ gpu.specular = light.m_specular ∧
      gpu.attenuation = light.m_attenuation ∧
      gpu.spot_attenuation = light.m_spot_attenuation :=
  ⟨by decide, by decide,
   (setup_lights_passes_fields_through 16 8 intOps staleBlock (sampleRender negativeRangeLights)
      7).2 0 (by decide)⟩

/-- Witness for C19: registering a renderer for Solid leaves the entry of Clear,
and init_pipeline overrides what the declaration registered for Solid. -/
theorem renderer_table_witness :
    Shading.Clear ≠ Shading.Solid ∧
    (emptyGfx.set_renderer Shading.Solid (RenderFunc.other 7)).renderer Shading.Clear
      = emptyGfx.renderer Shading.Clear ∧
    (GfxSystem.init_pipeline false (fun _ g => g) emptyGfx sampleDecl).renderer Shading.Solid
      = some RenderFunc.render_solid :=
  ⟨by decide,
   (renderer_table emptyGfx Shading.Solid (RenderFunc.other 7) false (fun _ g => g)
      sampleDecl).2.1 Shading.Clear (by decide),
   (renderer_table emptyGfx Shading.Solid (RenderFunc.other 7) false (fun _ g => g)
      sampleDecl).2.2.1⟩

/-- Witness for C21: the scenario over a cap of 4, which is below 2^16. -/
theorem setup_lights_light_count_witness :
    (4 : Nat) < 2 ^ 16 ∧
    (setup_lights 4 8 intOps staleBlock (sampleRender scenarioLights) 7).m_light_count
      = min (sampleRender scenarioLights).m_shot.m_lights.length 4 ∧
    (setup_lights 4 8 intOps staleBlock (sampleRender scenarioLights) 7).m_zones.m_light_count
      = min (sampleRender scenarioLights).m_shot.m_lights.length 4 ∧
    (setup_lights 4 8 intOps staleBlock (sampleRender scenarioLights) 7).m_light_count
      = (setup_lights 4 8 intOps staleBlock (sampleRender scenarioLights) 7).m_gpu_lights.length :=
  ⟨by decide,
   (setup_lights_light_count 4 8 intOps staleBlock (sampleRender scenarioLights) 7).2.2
     (by decide)⟩

/-- Witness for C22: the shadow placeholder at index 3 of the scenario. -/
theorem setup_lights_shadow_placeholder_witness :
    3 < min (sampleRender scenarioLights).m_shot.m_lights.length 4 ∧
    ∃ light : Light Int Int Int, (sampleRender scenarioLights).m_shot.m_lights[3]? = some light ∧
      (setup_lights 4 8 intOps staleBlock (sampleRender scenarioLights) 7).m_gpu_shadows[3]?
        = some
          { matrix := intOps.of_size 8
            bias := light.m_shadow_bias
            radius := intOps.one
            atlas_offset := (intOps.zero, intOps.zero)
            atlas_scale := (intOps.zero, intOps.zero) } :=
  ⟨by decide,
   (setup_lights_shadow_placeholder 4 8 intOps staleBlock (sampleRender scenarioLights) 7).1 3
     (by decide)⟩

/-- Witness for C23: slots 0 and 2 of type Point in the scenario hold the light
indices 0 and 5. -/
theorem setup_lights_stable_within_type_witness :
    0 < 2 ∧
    2 < (setup_lights 16 8 intOps staleBlock (sampleRender scenarioLights) 7).m_zones.m_light_counts
      LightType.Point.index ∧
    (setup_lights 16 8 intOps staleBlock (sampleRender scenarioLights) 7).m_zones.m_light_indices
        0 LightType.Point.index
      < (setup_lights 16 8 intOps staleBlock (sampleRender scenarioLights)
          7).m_zones.m_light_indices 2 LightType.Point.index :=
  ⟨by decide, by decide,
   setup_lights_stable_within_type 16 8 intOps staleBlock (sampleRender scenarioLights) 7
     LightType.Point 0 2 (by decide) (by decide)⟩

/-- Witness for C24: after a frame with lights and a frame without, the next frame
selects at index 0 of two tracked direct lights. -/
theorem begin_render_index_zero_witness :
    staleBlock.m_direct_light_index = 0 ∧
    (begin_render_classify
      ([sampleRender scenarioLights, sampleRender []].foldl (begin_render 16 8 intOps) staleBlock)
      (sampleRender scenarioLights)).m_direct_lights ≠ [] ∧
    (begin_render_classify
      ([sampleRender scenarioLights, sampleRender []].foldl (begin_render 16 8 intOps) staleBlock)
      (sampleRender scenarioLights)).m_direct_light_index
      < (begin_render_classify
          ([sampleRender scenarioLights, sampleRender []].foldl (begin_render 16 8 intOps)
            staleBlock)
          (sampleRender scenarioLights)).m_direct_lights.length ∧
    (select_direct_light (begin_render_classify
      ([sampleRender scenarioLights, sampleRender []].foldl (begin_render 16 8 intOps) staleBlock)
      (sampleRender scenarioLights))).isSome = true :=
  ⟨rfl, by decide,
   ((begin_render_index_zero 16 8 intOps staleBlock (sampleRender scenarioLights)
      [sampleRender scenarioLights, sampleRender []]).2 rfl).2.2.1 (by decide)⟩

/-- Witness for C25: the write of slot 1 of type Direct in the scenario. -/
theorem setup_lights_capacity_witness :
    (1, LightType.Direct.index)
      ∈ setup_lights_writes 16 intOps staleBlock (sampleRender scenarioLights) 7 ∧
    1 < min (sampleRender scenarioLights).m_shot.m_lights.length 16 ∧
    (∃ t : LightType, LightType.Direct.index = t.index) ∧
    (LightType.Direct.index : Nat) < 4 :=
  ⟨by decide,
   (setup_lights_capacity 16 8 intOps staleBlock (sampleRender scenarioLights) 7).2
     (1, LightType.Direct.index) (by decide)⟩

/-- Witness for C26: slot 3 of type Point, beyond the 3 point lights of the
scenario, keeps the stale value of the block. -/
theorem setup_lights_writes_below_counts_witness :
    ¬ 3 < (setup_lights 16 8 intOps staleBlock (sampleRender scenarioLights)
      7).m_zones.m_light_counts LightType.Point.index ∧
    staleBlock.m_zones.m_light_indices 3 LightType.Point.index = 99 ∧
    (setup_lights 16 8 intOps staleBlock (sampleRender scenarioLights) 7).m_zones.m_light_indices
        3 LightType.Point.index
      = staleBlock.m_zones.m_light_indices 3 LightType.Point.index :=
  ⟨by decide, rfl,
   (setup_lights_writes_below_counts 16 8 intOps staleBlock (sampleRender scenarioLights) 7).2 3
     LightType.Point.index (by decide)⟩

/-- Witness for C29: the file exists only under the second resource path; the
two candidates of the first path come before it. -/
theorem locate_file_first_candidate_witness :
    locate_candidates filesGfx.m_resource_paths [".bin", ".sc"]
      = [("data", ".bin", 0), ("data", ".sc", 1)] ++ ("data/extra", ".bin", 0) ::
          [("data/extra", ".sc", 1)] ∧
    (∀ earlier ∈ [("data", ".bin", 0), ("data", ".sc", 1)],
      sampleFiles (candidate_path "shader" earlier) = false) ∧
    sampleFiles (candidate_path "shader" ("data/extra", ".bin", 0)) = true ∧
    filesGfx.locate_file sampleFiles "shader" [".bin", ".sc"]
      = { m_located := true, m_location := "data/extra", m_name := "shader",
          m_extension := ".bin", m_extension_index := 0 } :=
  ⟨by decide, by decide, by decide,
   (locate_file_first_candidate sampleFiles filesGfx "shader" [".bin", ".sc"]).1
     [("data", ".bin", 0), ("data", ".sc", 1)] [("data/extra", ".sc", 1)]
     ("data/extra", ".bin", 0) (by decide) (by decide) (by decide)⟩

/-- Witness for C30 as amended: three contexts of which the second refuses the
frame are all called, in order, and the frame is not pursued. -/
theorem begin_frame_all_contexts_witness :
    filesGfx.m_programs = some [7] ∧
    (filesGfx.begin_frame sampleUpdate sampleUpdate sampleContextBeginFrame 0).map
        (fun run => (run.calls, run.pursue))
      = some ([(4, true), (5, false), (6, true)], false) ∧
    (([4, 5, 6].foldl GfxSystem.register_context (GfxSystem.construct "data")).begin_frame
        sampleUpdate sampleUpdate sampleContextBeginFrame 0).map
        (fun run => (run.calls, run.pursue))
      = some ([(4, true), (5, false), (6, true)], false) ∧
    ∃ run : FrameRun Nat,
      filesGfx.begin_frame sampleUpdate sampleUpdate sampleContextBeginFrame 0 = some run ∧
      run.calls.map Prod.fst = filesGfx.m_contexts ∧
      (run.pursue = true ↔ ∀ call ∈ run.calls, call.2 = true) :=
  ⟨rfl, by decide, by decide,
   (begin_frame_all_contexts sampleUpdate sampleUpdate sampleContextBeginFrame filesGfx 0).1
     [7] rfl⟩

/-- Witness for C27: the translation (1, -2, 3) applied to the position
(10, 20, 30) and undone. -/
theorem translate_undo_reverses_apply_witness :
    (sampleAction.apply sampleTransform).2.m_position = (11, 18, 33) ∧
    ((sampleAction.apply sampleTransform).1.undo (sampleAction.apply sampleTransform).2).2
      = sampleTransform :=
  ⟨by decide, (translate_undo_reverses_apply sampleAction sampleTransform).1⟩

/-- Witness for C28: an update from (1, 1, 1) to (4, 5, 6) replaces the
translation (1, -2, 3). -/
theorem translate_update_replaces_witness :
    (sampleAction.update (1, 1, 1) (4, 5, 6)).m_translation = (3, 4, 5) ∧
    (sampleAction.update (1, 1, 1) (4, 5, 6)).m_translation = (4, 5, 6) - (1, 1, 1) :=
  ⟨by decide,
   (translate_update_replaces [0] sampleAction sampleTransform (1, 1, 1) (4, 5, 6) (0, 0, 0)
      (9, 9, 9)).2.2.1⟩

end mud
